import Mathlib

/-!
Shallow embedding of the `atari2600_lib` emulator core, together with proofs
checking the project specification's claims against the code.

The definitions below are direct translations of the corresponding Rust items:
`u8`/`u16`/`usize` values are modelled as `Nat` with explicit `% 2^w` where the
source relies on wrapping, fallible operations (`unwrap`, unsigned-underflow)
are modelled in `Option`, and interior mutability is modelled by explicit state
passing (methods become functions `State → ... → State`).
-/

set_option maxRecDepth 10000

namespace Atari

/-! ## `src/tia/counter.rs` -/

/-- Result of `Counter::apply_hmove` (struct `HMoveResult`). -/
structure HMoveResult where
  moved : Bool
  clocked : Bool
  deriving Repr, DecidableEq

/-- The divide-by-4 position counter (struct `Counter`).  All `u8` fields are
modelled as `Nat`; arithmetic that can wrap in `u8` carries an explicit
`% 256`. -/
structure Counter where
  period : Nat
  reset_value : Nat
  reset_delay : Nat
  internal_value : Nat
  last_value : Nat
  ticks_added : Nat
  movement_required : Bool
  deriving Repr, DecidableEq

/-- `fn ticks_to_add(v: u8) -> u8` from `counter.rs`. -/
def ticks_to_add (v : Nat) : Nat :=
  let nibble := v / 16
  if nibble < 8 then nibble + 8 else nibble - 8

namespace Counter

/-- `Counter::new(period, reset_value)`. -/
def new (period reset_value : Nat) : Counter :=
  { period := period, reset_value := reset_value, internal_value := 0,
    reset_delay := 0, last_value := 0, ticks_added := 0,
    movement_required := false }

/-- `Counter::default()` (`PERIOD = 40`, `RESET_VALUE = 39`). -/
def default : Counter := new 40 39

/-- `Counter::value`: exposed value is `internal_value / DIVIDER`. -/
def value (c : Counter) : Nat := c.internal_value / 4

/-- `Counter::reset`: `internal_value = reset_value * DIVIDER` (`u8` multiply,
hence the `% 256`). -/
def reset (c : Counter) : Counter :=
  { c with internal_value := c.reset_value * 4 % 256 }

/-- `Counter::reset_to`. -/
def reset_to (c : Counter) (v : Nat) : Counter :=
  { c with internal_value := v }

/-- `Counter::reset_to_h1`. -/
def reset_to_h1 (c : Counter) : Counter :=
  { c with internal_value := c.value * 4 % 256, reset_delay := 8 }

/-- `Counter::clock`.  Returns the new state together with the `clocked`
flag.  The increment is `u8` arithmetic modulo `period * DIVIDER`. -/
def clock (c : Counter) : Counter × Bool :=
  let c₁ :=
    if c.reset_delay > 0 then
      let c' := { c with reset_delay := c.reset_delay - 1 }
      if c'.reset_delay = 0 then c'.reset else c'
    else c
  let c₂ := { c₁ with
    internal_value := (c₁.internal_value + 1) % 256 % (c₁.period * 4 % 256) }
  let clocked := decide (c₂.last_value ≠ c₂.value)
  ({ c₂ with last_value := c₂.value }, clocked)

/-- State part of `Counter::clock` (the counter after one clock). -/
def clock1 (c : Counter) : Counter := (c.clock).1

/-- `Counter::start_hmove(hm_val)`. -/
def start_hmove (c : Counter) (hm_val : Nat) : Counter :=
  { c with ticks_added := 0, movement_required := decide (ticks_to_add hm_val ≠ 0) }

/-- `Counter::apply_hmove(hm_val)`. -/
def apply_hmove (c : Counter) (hm_val : Nat) : Counter × HMoveResult :=
  if c.movement_required then
    let (c₁, clocked) := c.clock
    let c₂ := { c₁ with ticks_added := (c₁.ticks_added + 1) % 256 }
    let c₃ := { c₂ with movement_required := decide (c₂.ticks_added ≠ ticks_to_add hm_val) }
    (c₃, { moved := true, clocked := clocked })
  else
    (c, { moved := false, clocked := false })

/-- Iterate `clock`, counting how many times the `clocked` flag was raised. -/
def clockN (c : Counter) : Nat → Counter × Nat
  | 0 => (c, 0)
  | n + 1 =>
    let (c', k) := clockN c n
    let (c'', b) := c'.clock
    (c'', k + (if b then 1 else 0))

/-- Whether the `clocked` flag is raised on the `i`-th clock (1-based) when
clocking repeatedly from `c`. -/
def signalAt (c : Counter) (i : Nat) : Bool :=
  ((clockN c (i - 1)).1.clock).2

/-- Iterate `apply_hmove` with a fixed motion register value. -/
def applyHmoveN (c : Counter) (hm_val : Nat) : Nat → Counter
  | 0 => c
  | n + 1 => ((applyHmoveN c hm_val n).apply_hmove hm_val).1

end Counter

namespace Counter

/-- `clock` on a counter with no pending deferred reset, in the in-range
regime (`internal_value < period * 4 ≤ 255`): the explicit `u8` wraps are
no-ops. -/
lemma clock_no_delay (c : Counter) (h0 : c.reset_delay = 0)
    (hB : c.period * 4 ≤ 255) (hI : c.internal_value < c.period * 4) :
    c.clock =
      ({ c with internal_value := (c.internal_value + 1) % (c.period * 4),
                last_value := ((c.internal_value + 1) % (c.period * 4)) / 4 },
       decide (c.last_value ≠ ((c.internal_value + 1) % (c.period * 4)) / 4)) := by
  have h256 : c.period * 4 % 256 = c.period * 4 := Nat.mod_eq_of_lt (by omega)
  have hi256 : (c.internal_value + 1) % 256 = c.internal_value + 1 :=
    Nat.mod_eq_of_lt (by omega)
  simp only [clock, h0, gt_iff_lt, Nat.lt_irrefl, if_false, h256, hi256, value]

/-- State reached by clocking `i` times from the reset state of
`Counter::new(P, R)`. -/
lemma clockN_reset_state (P R : Nat) (hP : 0 < P) (hB : P * 4 ≤ 255)
    (hR : R < P) (i : Nat) :
    ((Counter.new P R).reset.clockN i).1 =
      { period := P, reset_value := R, reset_delay := 0,
        internal_value := (R * 4 + i) % (P * 4),
        last_value := if i = 0 then 0 else ((R * 4 + i) % (P * 4)) / 4,
        ticks_added := 0, movement_required := false } := by
  have hR4 : R * 4 < P * 4 := by omega
  induction i with
  | zero =>
    have h1 : R * 4 % 256 = R * 4 := Nat.mod_eq_of_lt (by omega)
    have h2 : (R * 4 + 0) % (P * 4) = R * 4 := by
      rw [Nat.add_zero]; exact Nat.mod_eq_of_lt hR4
    have h3 : R * 4 % (P * 4) = R * 4 := Nat.mod_eq_of_lt hR4
    simp [clockN, new, reset, h1, h2, h3]
  | succ i ih =>
    have hlt : (R * 4 + i) % (P * 4) < P * 4 := Nat.mod_lt _ (by omega)
    simp only [clockN, ih]
    rw [clock_no_delay _ rfl (by exact hB) (by exact hlt)]
    simp only [Counter.mk.injEq, Nat.mod_add_mod, Nat.succ_ne_zero, if_false,
      Nat.add_assoc, and_true, true_and]

/-- The divided values before and after one more clock differ exactly on the
clocks that are multiples of 4 (needs `1 < P` so that a wraparound of the
exposed value is an actual change). -/
lemma div_change (P R j : Nat) (hP : 1 < P) (_hj : 1 ≤ j) :
    ((R * 4 + j) % (P * 4) / 4 ≠ (R * 4 + (j + 1)) % (P * 4) / 4) ↔
      (j + 1) % 4 = 0 := by
  have hlt : (R * 4 + j) % (P * 4) < P * 4 := Nat.mod_lt _ (by omega)
  have hmod4 : (R * 4 + j) % (P * 4) % 4 = j % 4 := by
    rw [Nat.mod_mod_of_dvd _ ⟨P, by ring⟩]; omega
  have hsucc : (R * 4 + (j + 1)) % (P * 4) = ((R * 4 + j) % (P * 4) + 1) % (P * 4) := by
    rw [Nat.mod_add_mod, Nat.add_assoc]
  rw [hsucc]
  rcases Nat.lt_or_ge ((R * 4 + j) % (P * 4) + 1) (P * 4) with hcase | hcase
  · rw [Nat.mod_eq_of_lt hcase]
    omega
  · have hend : (R * 4 + j) % (P * 4) + 1 = P * 4 := by omega
    rw [hend, Nat.mod_self]
    omega

/-- Value of the `clocked` signal on the `i`-th clock from the reset state:
it is raised on every 4th clock, plus spuriously on the very first clock when
the stale `last_value` (0) differs from the reset value `R`. -/
lemma signalAt_reset (P R : Nat) (hP : 1 < P) (hB : P * 4 ≤ 255) (hR : R < P)
    (i : Nat) (hi : 1 ≤ i) :
    ((Counter.new P R).reset.signalAt i = true) ↔
      (i % 4 = 0 ∨ (i = 1 ∧ R ≠ 0)) := by
  obtain ⟨j, rfl⟩ : ∃ j, i = j + 1 := ⟨i - 1, by omega⟩
  unfold signalAt
  have hlt : (R * 4 + j) % (P * 4) < P * 4 := Nat.mod_lt _ (by omega)
  rw [Nat.add_sub_cancel, clockN_reset_state P R (by omega) hB hR j,
    clock_no_delay _ rfl (by exact hB) (by exact hlt)]
  simp only [Nat.mod_add_mod, decide_eq_true_eq]
  rcases Nat.eq_zero_or_pos j with rfl | hj
  · have h1 : (R * 4 + 0 + 1) % (P * 4) = R * 4 + 1 := by
      rw [Nat.add_zero]; exact Nat.mod_eq_of_lt (by omega)
    simp only [h1, if_true, if_pos trivial, true_and]
    omega
  · have hne : j ≠ 0 := by omega
    have hj1 : j + 1 ≠ 1 := by omega
    rw [if_neg hne, show R * 4 + j + 1 = R * 4 + (j + 1) by ring, ne_eq,
      show (¬(R * 4 + j) % (P * 4) / 4 = (R * 4 + (j + 1)) % (P * 4) / 4) ↔
          (j + 1) % 4 = 0 from div_change P R j hP hj]
    omega

/-- Running count of `clocked` signals from the reset state. -/
lemma clockN_reset_count (P R : Nat) (hP : 1 < P) (hB : P * 4 ≤ 255)
    (hR : R < P) (i : Nat) :
    ((Counter.new P R).reset.clockN i).2 =
      i / 4 + (if i = 0 ∨ R = 0 then 0 else 1) := by
  induction i with
  | zero => simp [clockN]
  | succ i ih =>
    have hsig := signalAt_reset P R hP hB hR (i + 1) (by omega)
    unfold signalAt at hsig
    rw [Nat.add_sub_cancel] at hsig
    show ((Counter.new P R).reset.clockN i).2 +
        (if (((Counter.new P R).reset.clockN i).1.clock).2 then 1 else 0) = _
    rw [ih]
    by_cases hR0 : R = 0
    · rw [if_pos (Or.inr hR0), if_pos (Or.inr hR0)]
      by_cases hc : (i + 1) % 4 = 0
      · rw [if_pos (hsig.mpr (Or.inl hc))]
        omega
      · have hnb : ¬(((Counter.new P R).reset.clockN i).1.clock).2 = true := by
          intro hb
          rcases hsig.mp hb with h | ⟨-, h⟩
          · exact hc h
          · exact h hR0
        rw [if_neg hnb]
        omega
    · have hne2 : ¬(i + 1 = 0 ∨ R = 0) := by
        rintro (h | h)
        · omega
        · exact hR0 h
      rw [if_neg hne2]
      by_cases hi0 : i = 0
      · subst hi0
        rw [if_pos (Or.inl rfl), if_pos (hsig.mpr (Or.inr ⟨rfl, hR0⟩))]
      · have hne1 : ¬(i = 0 ∨ R = 0) := by
          rintro (h | h)
          · exact hi0 h
          · exact hR0 h
        rw [if_neg hne1]
        by_cases hc : (i + 1) % 4 = 0
        · rw [if_pos (hsig.mpr (Or.inl hc))]
          omega
        · have hnb : ¬(((Counter.new P R).reset.clockN i).1.clock).2 = true := by
            intro hb
            rcases hsig.mp hb with h | ⟨h, -⟩
            · exact hc h
            · omega
          rw [if_neg hnb]
          omega

end Counter

-- Sanity checks against the repository's own `counter.rs` unit tests.
example : ((Counter.default.clock).1.internal_value, (Counter.default.clock).2) = (1, false) := by
  decide
example : ((Counter.new 40 0).clockN 4).1.value = 1 := by decide
example : ((Counter.new 40 0).clockN 4).2 = 1 := by decide
example : ((Counter.new 40 0).clockN 160).1.value = 0 := by decide
example : ((Counter.new 40 0).clockN 160).2 = 40 := by decide

/-- C7 (counterexample): with the default period 40 and reset value 39
(exactly `Counter::default()`), clocking `40 × 4 = 160` times from the reset
state raises the `clocked` signal 41 times, not 40: the stale `last_value`
makes the very first clock report a (spurious) change, so the signals are not
"exactly P, evenly spaced every 4 clocks". -/
theorem counter_wraparound_claim_cex :
    Counter.default = Counter.new 40 39 ∧
      (Counter.default.reset.clockN 160).2 = 41 ∧
      Counter.default.reset.signalAt 1 = true ∧
      ¬(Counter.default.reset.clockN 160).2 = 40 := by
  refine ⟨rfl, by decide, by decide, by decide⟩

/-- C7 (amended): for a counter of period `P` (`1 < P`, `4P ≤ 255`) and reset
value `R < P`, clocking `P × 4` times from the reset state returns the exposed
(`internal/4`) value to its starting value `R`, and the `clocked` signal is
raised exactly on every 4th clock — `P` evenly-spaced signals — except that
one extra, spurious signal fires on the very first clock when `R ≠ 0`
(because `last_value` is stale across `reset`); the total count is therefore
`P` when `R = 0` and `P + 1` otherwise. -/
theorem counter_wraparound_amended (P R : Nat) (hP : 1 < P)
    (hB : P * 4 ≤ 255) (hR : R < P) :
    (((Counter.new P R).reset.clockN (P * 4)).1.value = R) ∧
      (((Counter.new P R).reset.clockN (P * 4)).2 =
        P + if R = 0 then 0 else 1) ∧
      (∀ i, 1 ≤ i →
        (((Counter.new P R).reset.signalAt i = true) ↔
          (i % 4 = 0 ∨ (i = 1 ∧ R ≠ 0)))) := by
  refine ⟨?_, ?_, fun i hi => Counter.signalAt_reset P R hP hB hR i hi⟩
  · rw [Counter.clockN_reset_state P R (by omega) hB hR (P * 4)]
    show ((R * 4 + P * 4) % (P * 4)) / 4 = R
    rw [Nat.add_mod_right, Nat.mod_eq_of_lt (by omega)]
    omega
  · rw [Counter.clockN_reset_count P R hP hB hR (P * 4)]
    have h4 : P * 4 / 4 = P := by omega
    have hne : ¬(P * 4 = 0) := by omega
    by_cases hR0 : R = 0
    · rw [if_pos (Or.inr hR0), if_pos hR0, h4]
    · rw [if_neg ?_, if_neg hR0, h4]
      rintro (h | h)
      · exact hne h
      · exact hR0 h

/-- C7 (witness for the amended theorem, at `P = 40`, `R = 39`). -/
theorem counter_wraparound_amended_witness :
    (((Counter.new 40 39).reset.clockN 160).1.value = 39) ∧
      (((Counter.new 40 39).reset.clockN 160).2 = 40 + if 39 = 0 then 0 else 1) := by
  have h := counter_wraparound_amended 40 39 (by decide) (by decide) (by decide)
  exact ⟨h.1, h.2.1⟩

namespace Counter

/-- `clock` only reads/writes the fields other than `ticks_added` and
`movement_required`: overriding those two commutes with clocking. -/
lemma clock_override (c : Counter) (t : Nat) (b : Bool) :
    ({ c with ticks_added := t, movement_required := b } : Counter).clock =
      ({ (c.clock).1 with ticks_added := t, movement_required := b },
       (c.clock).2) := by
  cases c
  simp only [clock, reset]
  split
  · split <;> rfl
  · rfl

/-- While the movement latch is armed, the `apply_hmove` iteration is exactly
the `clock` iteration, with `ticks_added` counting the calls made so far. -/
lemma applyHmoveN_le (c : Counter) (m k : Nat)
    (hk : k ≤ ticks_to_add m) (hm : m < 256) :
    (c.start_hmove m).applyHmoveN m k =
      { clock1^[k] (c.start_hmove m) with
          ticks_added := k,
          movement_required := decide (k ≠ ticks_to_add m) } := by
  have hn15 : ticks_to_add m ≤ 15 := by
    show (if m / 16 < 8 then m / 16 + 8 else m / 16 - 8) ≤ 15
    split <;> omega
  induction k with
  | zero =>
    show c.start_hmove m = _
    simp only [Function.iterate_zero, id_eq, start_hmove]
    congr 1
    rw [decide_eq_decide]
    exact ne_comm
  | succ k ih =>
    have hk' : k ≤ ticks_to_add m := by omega
    have hkne : (k ≠ ticks_to_add m) := by omega
    show (((c.start_hmove m).applyHmoveN m k).apply_hmove m).1 = _
    rw [ih hk']
    unfold apply_hmove
    rw [if_pos (by simp [hkne])]
    rw [clock_override]
    have h256 : (k + 1) % 256 = k + 1 := Nat.mod_eq_of_lt (by omega)
    simp only [h256, Function.iterate_succ_apply', clock1]

/-- Once `ticks_added` has reached the programmed tick count, `apply_hmove`
is a no-op reporting `moved = false`. -/
lemma applyHmoveN_ge (c : Counter) (m j : Nat)
    (hj : ticks_to_add m ≤ j) (hm : m < 256) :
    (c.start_hmove m).applyHmoveN m j =
      (c.start_hmove m).applyHmoveN m (ticks_to_add m) := by
  induction j with
  | zero =>
    have : ticks_to_add m = 0 := by omega
    rw [this]
  | succ j ih =>
    rcases Nat.lt_or_ge (ticks_to_add m) (j + 1) with hlt | hge
    · have hj' : ticks_to_add m ≤ j := by omega
      show (((c.start_hmove m).applyHmoveN m j).apply_hmove m).1 = _
      rw [ih hj']
      rw [applyHmoveN_le c m (ticks_to_add m) (Nat.le_refl _) hm]
      unfold apply_hmove
      rw [if_neg (by simp)]
    · have : ticks_to_add m = j + 1 := by omega
      rw [this]

end Counter

/-- C8: the horizontal-motion extension protocol.  For every motion-register
byte `m`: `start_hmove` derives the extra-tick count `n = ticks_to_add m`
from the high nibble (`nibble + 8` if the nibble is `< 8`, else
`nibble − 8`, a value in `[0, 15]`), and arms the movement latch exactly when
`n ≠ 0`; while armed, the `k`-th `apply_hmove` call (for `k < n`) reports
`moved = true` together with the clock's divided-value-changed flag and
advances the counter by exactly one `clock`; after exactly `n` calls the
state is the `n`-fold clocking of the armed state with the latch disarmed,
and all later calls leave the state unchanged and report `moved = false`. -/
theorem hmove_protocol (c : Counter) (m : Nat) (hm : m < 256) :
    (ticks_to_add m =
        (if m / 16 < 8 then m / 16 + 8 else m / 16 - 8)) ∧
      ticks_to_add m ≤ 15 ∧
      (((c.start_hmove m).movement_required = true) ↔ ticks_to_add m ≠ 0) ∧
      (∀ k, k < ticks_to_add m →
        ((((c.start_hmove m).applyHmoveN m k).apply_hmove m).2.moved = true) ∧
        ((((c.start_hmove m).applyHmoveN m k).apply_hmove m).2.clocked =
          ((Counter.clock1^[k] (c.start_hmove m)).clock).2)) ∧
      ((c.start_hmove m).applyHmoveN m (ticks_to_add m) =
        { Counter.clock1^[ticks_to_add m] (c.start_hmove m) with
            ticks_added := ticks_to_add m,
            movement_required := false }) ∧
      (∀ j, ticks_to_add m ≤ j →
        ((c.start_hmove m).applyHmoveN m j =
          (c.start_hmove m).applyHmoveN m (ticks_to_add m)) ∧
        ((((c.start_hmove m).applyHmoveN m j).apply_hmove m).2.moved = false)) := by
  have hn15 : ticks_to_add m ≤ 15 := by
    show (if m / 16 < 8 then m / 16 + 8 else m / 16 - 8) ≤ 15
    split <;> omega
  refine ⟨rfl, hn15, by simp [Counter.start_hmove], ?_, ?_, ?_⟩
  · intro k hk
    rw [Counter.applyHmoveN_le c m k (by omega) hm]
    have hkne : (k ≠ ticks_to_add m) := by omega
    unfold Counter.apply_hmove
    rw [if_pos (by simp [hkne]), Counter.clock_override]
    exact ⟨rfl, rfl⟩
  · rw [Counter.applyHmoveN_le c m (ticks_to_add m) (Nat.le_refl _) hm]
    simp
  · intro j hj
    refine ⟨Counter.applyHmoveN_ge c m j hj hm, ?_⟩
    rw [Counter.applyHmoveN_ge c m j hj hm,
      Counter.applyHmoveN_le c m (ticks_to_add m) (Nat.le_refl _) hm]
    unfold Counter.apply_hmove
    rw [if_neg (by simp)]

/-- C8 (witness, at `m = 0x31` — high nibble 3, so 11 extra ticks — on the
default counter). -/
theorem hmove_protocol_witness :
    ticks_to_add 0x31 ≤ 15 ∧
      (((Counter.default.start_hmove 0x31).applyHmoveN 0x31 0).apply_hmove 0x31).2.moved = true := by
  have h := hmove_protocol Counter.default 0x31 (by decide)
  exact ⟨h.2.1, (h.2.2.2.1 0 (by decide)).1⟩

/-! ## `src/memory.rs`: PIA address set -/

/-- `enum PiaAddress` from `memory.rs`. -/
inductive PiaAddress where
  | RAM (n : Nat)
  | SWCHA
  | SWACNT
  | SWCHB
  | SWBCNT
  | INTIM
  | INSTAT
  | TIM1T
  | TIM8T
  | TIM64T
  | T1024T
  deriving Repr, DecidableEq

/-- `PiaAddress::from_address` from `memory.rs`. -/
def PiaAddress.from_address (address : Nat) : Option PiaAddress :=
  if address ≤ 0x7F then some (.RAM address)
  else if address = 0x280 then some .SWCHA
  else if address = 0x281 then some .SWACNT
  else if address = 0x282 then some .SWCHB
  else if address = 0x283 then some .SWBCNT
  else if address = 0x284 then some .INTIM
  else if address = 0x285 then some .INSTAT
  else if address = 0x294 then some .TIM1T
  else if address = 0x295 then some .TIM8T
  else if address = 0x296 then some .TIM64T
  else if address = 0x297 then some .T1024T
  else none

/-! ## `src/riot.rs` -/

/-- The RIOT (RAM/IO/Timer) chip state (`struct RIOT`).  The 128-byte RAM is
modelled as a total function on addresses; `usize` fields are `Nat`. -/
structure RIOT where
  ram : Nat → Nat
  swcha : Nat
  swacnt : Nat
  swchb : Nat
  swbcnt : Nat
  intim : Nat
  instat : Nat
  port_a : Nat
  port_b : Nat
  resolution : Nat
  cycle_count : Nat

namespace RIOT

/-- `RIOT::default()` (`port_b = 0b1100_1000`). -/
def default : RIOT :=
  { ram := fun _ => 0, swcha := 0, swacnt := 0, swchb := 0, swbcnt := 0,
    intim := 0, instat := 0, port_a := 0, port_b := 0b11001000,
    resolution := 0, cycle_count := 0 }

/-- `RIOT::decrement`: `u8` `overflowing_sub(1)` on `intim`; on underflow the
status latches and the resolution drops to 1; finally reload the prescaler. -/
def decrement (r : RIOT) : RIOT :=
  let underflowed := r.intim = 0
  let r1 := { r with intim := if r.intim = 0 then 255 else r.intim - 1 }
  let r2 :=
    if underflowed then { r1 with instat := 0b11000000, resolution := 1 }
    else r1
  { r2 with cycle_count := r2.resolution }

/-- `RIOT::init_timer(val, resolution)`. -/
def init_timer (r : RIOT) (val resolution : Nat) : RIOT :=
  ({ r with intim := val, resolution := resolution }).decrement

/-- `RIOT::clock`.  `cycle_count` is a `usize` decremented unconditionally:
from 0 this underflows (a panic in a debug build), modelled as `none`. -/
def clock (r : RIOT) : Option RIOT :=
  if r.cycle_count = 0 then none
  else
    let r1 := { r with cycle_count := r.cycle_count - 1 }
    if r1.cycle_count = 0 then some r1.decrement else some r1

/-- Iterated `clock` (propagating the underflow failure). -/
def clockN (r : RIOT) : Nat → Option RIOT
  | 0 => some r
  | n + 1 => (r.clockN n).bind clock

/-- `<RIOT as Bus>::read`: the `PiaAddress::from_address(address).unwrap()`
panics on an unrecognized offset, modelled as `none`.  Returns the byte read
and the successor state (reading `INSTAT` clears its bit 6). -/
def read (r : RIOT) (address : Nat) : Option (Nat × RIOT) :=
  match PiaAddress.from_address address with
  | none => none
  | some pa =>
    match pa with
    | .RAM _ => some (r.ram address, r)
    | .SWCHA => some ((r.swcha &&& r.swacnt) ||| (r.port_a &&& (r.swacnt ^^^ 0xff)), r)
    | .SWCHB => some ((r.swchb &&& r.swbcnt) ||| (r.port_b &&& (r.swbcnt ^^^ 0xff)), r)
    | .INTIM => some (r.intim, r)
    | .INSTAT => some (r.instat, { r with instat := r.instat &&& 0b10111111 })
    | _ => some (0, r)

/-- `<RIOT as Bus>::write` (same `unwrap` failure mode as `read`). -/
def write (r : RIOT) (address val : Nat) : Option RIOT :=
  match PiaAddress.from_address address with
  | none => none
  | some pa =>
    match pa with
    | .RAM _ => some { r with ram := fun a => if a = address then val else r.ram a }
    | .SWACNT => some { r with swacnt := val }
    | .SWBCNT => some { r with swbcnt := val }
    | .TIM1T => some (r.init_timer val 1)
    | .TIM8T => some (r.init_timer val 8)
    | .TIM64T => some (r.init_timer val 64)
    | .T1024T => some (r.init_timer val 1024)
    | _ => some r

end RIOT

/-- A timer-interval write has occurred: the prescaler and resolution are
both positive, which is exactly what `clock` needs to avoid the `usize`
underflow. -/
def timerArmed (r : RIOT) : Prop := 1 ≤ r.resolution ∧ 1 ≤ r.cycle_count

/-- `decrement` keeps the timer armed whenever the resolution is positive. -/
lemma decrement_armed (r : RIOT) (h : 1 ≤ r.resolution) :
    timerArmed r.decrement := by
  unfold RIOT.decrement timerArmed
  by_cases h0 : r.intim = 0 <;> simp [h0] <;> omega

/-- C2 (counterexample): writing `0x05` to TIM8T and clocking the RIOT 48
times leaves INTIM at `0xF7`, not `0xFF`: the value `0x05` is decremented once
by the write itself, the single underflow happens on clock 40, and the
resolution then drops to 1 so the remaining 8 clocks each decrement INTIM. -/
theorem timer_underflow_claim_cex :
    ((RIOT.default.write 0x295 0x05).bind (fun r => r.clockN 48)).map RIOT.intim
        = some 0xF7 ∧
      ¬((RIOT.default.write 0x295 0x05).bind (fun r => r.clockN 48)).map RIOT.intim
        = some 0xFF := by
  refine ⟨by decide, by decide⟩

/-- C2 (amended): writing `0x05` to TIM8T loads 5 and immediately decrements
(INTIM = 4, prescale 8).  After 39 clocks INTIM is 0 and the status is still
clear; clock 40 underflows exactly once (INTIM = `0xFF`, INSTAT = `0xC0`, and
the resolution drops to 1); the remaining 8 of the 48 clocks decrement INTIM
once each, leaving `0xF7` with the status bits still set.  A subsequent
INSTAT read returns `0xC0` and clears bit 6 as a side effect (bit 7 is
untouched), so a second read returns `0x80`: the read-and-cleared bit is
returned set exactly once, never twice. -/
theorem timer_underflow_amended :
    ((RIOT.default.write 0x295 0x05)).map RIOT.intim = some 0x04 ∧
      ((RIOT.default.write 0x295 0x05)).map RIOT.resolution = some 8 ∧
      ((RIOT.default.write 0x295 0x05).bind (fun r => r.clockN 39)).map RIOT.intim
        = some 0x00 ∧
      ((RIOT.default.write 0x295 0x05).bind (fun r => r.clockN 39)).map RIOT.instat
        = some 0x00 ∧
      ((RIOT.default.write 0x295 0x05).bind (fun r => r.clockN 40)).map RIOT.intim
        = some 0xFF ∧
      ((RIOT.default.write 0x295 0x05).bind (fun r => r.clockN 40)).map RIOT.instat
        = some 0xC0 ∧
      ((RIOT.default.write 0x295 0x05).bind (fun r => r.clockN 40)).map RIOT.resolution
        = some 1 ∧
      ((RIOT.default.write 0x295 0x05).bind (fun r => r.clockN 48)).map RIOT.intim
        = some 0xF7 ∧
      ((RIOT.default.write 0x295 0x05).bind (fun r => r.clockN 48)).map RIOT.instat
        = some 0xC0 ∧
      (((RIOT.default.write 0x295 0x05).bind (fun r => r.clockN 48)).bind
          (fun r => r.read 0x285)).map Prod.fst = some 0xC0 ∧
      (((RIOT.default.write 0x295 0x05).bind (fun r => r.clockN 48)).bind
          (fun r => r.read 0x285)).map (fun p => p.2.instat) = some 0x80 ∧
      ((((RIOT.default.write 0x295 0x05).bind (fun r => r.clockN 48)).bind
          (fun r => r.read 0x285)).bind (fun p => p.2.read 0x285)).map Prod.fst
        = some 0x80 := by
  refine ⟨by decide, by decide, by decide, by decide, by decide, by decide,
    by decide, by decide, by decide, by decide, by decide, by decide⟩

/-- C9: clocking a freshly constructed RIOT underflows the `usize` field
`cycle_count` (initially 0); safety requires a prior timer-interval write.
Formally: (1) the fresh chip has `cycle_count = 0` and `clock` fails;
(2) `init_timer` with any positive resolution arms the timer;
(3) every successful RIOT register write either leaves `cycle_count` and
`resolution` unchanged or arms the timer — the four TIMxT writes being the
arming ones — so an unarmed chip stays unarmed until a timer write;
(4) once armed (`cycle_count ≥ 1`), `clock` always succeeds and preserves the
armed invariant, so no underflow can occur after a timer-interval write. -/
theorem riot_clock_underflow_safety :
    (RIOT.default.cycle_count = 0 ∧ RIOT.default.clock = none) ∧
      (∀ (r : RIOT) (v res : Nat), 1 ≤ res → timerArmed (r.init_timer v res)) ∧
      (∀ (r : RIOT) (a v : Nat) (r' : RIOT), r.write a v = some r' →
        ((r'.cycle_count = r.cycle_count ∧ r'.resolution = r.resolution) ∨
          timerArmed r')) ∧
      (∀ (r : RIOT), timerArmed r → ∃ r', r.clock = some r' ∧ timerArmed r') := by
  refine ⟨⟨rfl, rfl⟩, ?_, ?_, ?_⟩
  · intro r v res hres
    exact decrement_armed { r with intim := v, resolution := res } hres
  · intro r a v r' hw
    unfold RIOT.write at hw
    cases hpa : PiaAddress.from_address a with
    | none => rw [hpa] at hw; cases hw
    | some pa =>
      rw [hpa] at hw
      cases pa with
      | RAM n => exact Or.inl (by cases hw; exact ⟨rfl, rfl⟩)
      | SWCHA => exact Or.inl (by cases hw; exact ⟨rfl, rfl⟩)
      | SWACNT => exact Or.inl (by cases hw; exact ⟨rfl, rfl⟩)
      | SWCHB => exact Or.inl (by cases hw; exact ⟨rfl, rfl⟩)
      | SWBCNT => exact Or.inl (by cases hw; exact ⟨rfl, rfl⟩)
      | INTIM => exact Or.inl (by cases hw; exact ⟨rfl, rfl⟩)
      | INSTAT => exact Or.inl (by cases hw; exact ⟨rfl, rfl⟩)
      | TIM1T => exact Or.inr (by cases hw; exact decrement_armed _ (by show 1 ≤ (1:Nat); decide))
      | TIM8T => exact Or.inr (by cases hw; exact decrement_armed _ (by show 1 ≤ (8:Nat); decide))
      | TIM64T => exact Or.inr (by cases hw; exact decrement_armed _ (by show 1 ≤ (64:Nat); decide))
      | T1024T => exact Or.inr (by cases hw; exact decrement_armed _ (by show 1 ≤ (1024:Nat); decide))
  · rintro r ⟨hres, hcc⟩
    unfold RIOT.clock
    rw [if_neg (by omega)]
    by_cases hc1 : r.cycle_count - 1 = 0
    · exact ⟨({ r with cycle_count := r.cycle_count - 1 } : RIOT).decrement,
        by rw [if_pos (by exact hc1)], decrement_armed _ hres⟩
    · exact ⟨{ r with cycle_count := r.cycle_count - 1 },
        by rw [if_neg (by exact hc1)], by exact hres,
        by show 1 ≤ r.cycle_count - 1; omega⟩

/-- C9 (witness): the invariant-based conjuncts applied at the fresh chip
after a TIM8T write of 5. -/
theorem riot_clock_underflow_safety_witness :
    timerArmed (RIOT.default.init_timer 5 8) ∧
      ∃ r', (RIOT.default.init_timer 5 8).clock = some r' ∧ timerArmed r' := by
  have h := riot_clock_underflow_safety
  exact ⟨h.2.1 RIOT.default 5 8 (by omega),
    h.2.2.2 (RIOT.default.init_timer 5 8) (h.2.1 RIOT.default 5 8 (by omega))⟩

/-! ## `src/cpu6507.rs`: the ADC instruction -/

/-- The CPU registers/flags affected by `CPU6507::adc`: the accumulator and
the carry/zero/overflow/sign flags. -/
structure AdcResult where
  a : Nat
  c : Bool
  z : Bool
  v : Bool
  s : Bool
  deriving Repr, DecidableEq

namespace CPU6507

/-- `CPU6507::adc` (both the decimal branch and the binary branch), as a
function of the accumulator `a`, the operand `val`, the carry-in `cin` and
the decimal flag `d`.  In the binary branch `n` is a `u16` sum (no wrap
possible: at most `255 + 255 + 1`); `update_sz` sets the sign flag from bit 7
and the zero flag from equality with 0. -/
def adc (a val : Nat) (cin d : Bool) : AdcResult :=
  if d then
    let lo := (a &&& 0x0f) + (val &&& 0x0f) + cin.toNat
    let hi := (a &&& 0xf0) + (val &&& 0xf0)
    let lo' := if lo > 0x09 then lo + 0x06 else lo
    let hi' := if lo > 0x09 then hi + 0x10 else hi
    let s := decide ((hi' &&& 0x80) ≠ 0)
    let z := decide (((lo' + hi') &&& 0xff) ≠ 0)
    let v := decide ((a ^^^ val) &&& 0x80 = 0) &&
      decide ((a ^^^ (hi' % 256)) &&& 0x80 ≠ 0)
    let hi'' := if hi' > 0x90 then hi' + 0x60 else hi'
    let c := decide ((hi'' &&& 0xff00) ≠ 0)
    { a := (lo' &&& 0x0f) ||| (hi'' &&& 0xf0), c := c, z := z, v := v, s := s }
  else
    let n := a + val + cin.toNat
    let res := n &&& 0x00ff
    let s := decide ((res &&& 0x80) ≠ 0)
    let z := decide (res = 0)
    let c := decide (n > 0xff)
    let v := decide ((a ^^^ val) &&& 0x80 = 0) &&
      decide ((a ^^^ res) &&& 0x80 ≠ 0)
    { a := res, c := c, z := z, v := v, s := s }

end CPU6507

/-- Bit 7 of an XOR vanishes under the `0x80` mask exactly when the two sign
bits agree. -/
lemma xor_and128_eq_zero (x y : Nat) :
    ((x ^^^ y) &&& 0x80 = 0) ↔ (x.testBit 7 = y.testBit 7) := by
  have h : (x ^^^ y) &&& 0x80 = ((x ^^^ y).testBit 7).toNat * 2 ^ 7 := by
    have := Nat.and_two_pow (x ^^^ y) 7
    norm_num at this ⊢
    exact this
  rw [h]
  cases hx : x.testBit 7 <;> cases hy : y.testBit 7 <;>
    simp [Nat.testBit_xor, hx, hy]

-- Sanity checks against the 6502 reference behavior of ADC.
example : (CPU6507.adc 0x50 0x50 false false).v = true := by decide
example : (CPU6507.adc 0x50 0x10 false false).v = false := by decide
example : (CPU6507.adc 0xFF 0x01 false false).c = true := by decide

/-- C5: in binary (non-decimal) mode, for all operands and carry-in, ADC's
result byte is `(a + b + c) mod 256`, the carry flag is set exactly when
`a + b + c > 255`, and the overflow flag is set exactly when `a` and `b`
share sign bit 7 while the result's sign bit differs from `a`'s. -/
theorem adc_binary_flags (a b : Nat) (cin : Bool) :
    ((CPU6507.adc a b cin false).a = (a + b + cin.toNat) % 256) ∧
      ((CPU6507.adc a b cin false).c = decide (a + b + cin.toNat > 255)) ∧
      ((CPU6507.adc a b cin false).v =
        (decide (a.testBit 7 = b.testBit 7) &&
          decide (¬((a + b + cin.toNat) % 256).testBit 7 = a.testBit 7))) := by
  have hres : (a + b + cin.toNat) &&& 0x00ff = (a + b + cin.toNat) % 256 := by
    have := Nat.and_pow_two_sub_one_eq_mod (a + b + cin.toNat) 8
    norm_num at this ⊢
    exact this
  refine ⟨?_, rfl, ?_⟩
  · show (a + b + cin.toNat) &&& 0x00ff = _
    exact hres
  · show (decide ((a ^^^ b) &&& 0x80 = 0) &&
        decide ((a ^^^ ((a + b + cin.toNat) &&& 0x00ff)) &&& 0x80 ≠ 0)) = _
    rw [hres]
    congr 1
    · rw [decide_eq_decide]
      exact xor_and128_eq_zero a b
    · rw [decide_eq_decide]
      rw [ne_eq, xor_and128_eq_zero a ((a + b + cin.toNat) % 256)]
      constructor
      · intro h h'; exact h h'.symm
      · intro h h'; exact h h'.symm

/-- C6: decimal-mode ADC round trips: BCD `0x09 + 0x01` (carry-in 0) gives
`0x10` with carry clear, and BCD `0x99 + 0x01` gives `0x00` with carry set. -/
theorem adc_decimal_examples :
    ((CPU6507.adc 0x09 0x01 false true).a = 0x10 ∧
      (CPU6507.adc 0x09 0x01 false true).c = false) ∧
      ((CPU6507.adc 0x99 0x01 false true).a = 0x00 ∧
        (CPU6507.adc 0x99 0x01 false true).c = true) := by
  refine ⟨⟨by decide, by decide⟩, ⟨by decide, by decide⟩⟩

/-! ## `src/tia`: graphical objects

The Rust objects hold an `Rc<RefCell<Colors>>` handle to the shared color
registers; here the color block lives in the TIA state and is passed to
`get_color` explicitly. -/

/-- Modelled from the spec: the shared color palette module
(`src/tia/color.rs` is not present under `src/`) — "four
background/foreground color registers" with plain getters/setters, written
by the video chip and read by all five graphical objects for color
resolution. -/
structure Colors where
  colup0 : Nat
  colup1 : Nat
  colupf : Nat
  colubk : Nat
  deriving Repr, DecidableEq

/-- Modelled from the spec: `Colors::new()` — a fresh color register block
(all registers cleared). -/
def Colors.new : Colors :=
  { colup0 := 0, colup1 := 0, colupf := 0, colubk := 0 }

/-- `enum PlayerType` from `tia/mod.rs`. -/
inductive PlayerType where
  | Player0
  | Player1
  deriving Repr, DecidableEq

/-- `struct ScanCounter` (graphics scan counter): `bit_idx` is an `isize`
option (negative during the initial delay window). -/
structure ScanCounter where
  bit_idx : Option Int
  bit_copies_written : Nat
  bit_value : Option Bool
  deriving Repr, DecidableEq

/-- `ScanCounter::default()`. -/
def ScanCounter.default : ScanCounter :=
  { bit_idx := none, bit_copies_written := 0, bit_value := none }

/-! ### `src/tia/player.rs` -/

/-- `struct Player` (colors handle factored out, see above). -/
structure Player where
  init_delay : Int
  graphic_size : Int
  hmove_offset : Nat
  ctr : Counter
  scan_counter : ScanCounter
  nusiz : Nat
  horizontal_mirror : Bool
  graphic : Nat
  vdel : Bool
  old_value : Nat
  player : PlayerType
  deriving Repr, DecidableEq

namespace Player

/-- `Player::new`. -/
def new (player : PlayerType) (init_delay graphic_size : Int) : Player :=
  { player := player, hmove_offset := 0, ctr := Counter.new 40 39,
    horizontal_mirror := false, nusiz := 0, graphic := 0, vdel := false,
    old_value := 0, scan_counter := ScanCounter.default,
    init_delay := init_delay, graphic_size := graphic_size }

/-- `Player::size`. -/
def size (p : Player) : Nat :=
  if p.nusiz &&& 0x0f = 0b0101 then 2
  else if p.nusiz &&& 0x0f = 0b0111 then 4
  else 1

/-- `Player::set_hmove_value`. -/
def set_hmove_value (p : Player) (v : Nat) : Player := { p with hmove_offset := v }

/-- `Player::set_graphic`. -/
def set_graphic (p : Player) (graphic : Nat) : Player := { p with graphic := graphic }

/-- `Player::set_horizontal_mirror`. -/
def set_horizontal_mirror (p : Player) (reflect : Bool) : Player :=
  { p with horizontal_mirror := reflect }

/-- `Player::set_nusiz`. -/
def set_nusiz (p : Player) (v : Nat) : Player := { p with nusiz := v &&& 0x0f }

/-- `Player::set_vdel`. -/
def set_vdel (p : Player) (v : Bool) : Player := { p with vdel := v }

/-- `Player::set_vdel_value`. -/
def set_vdel_value (p : Player) : Player := { p with old_value := p.graphic }

/-- `Player::hmclr`. -/
def hmclr (p : Player) : Player := { p with hmove_offset := 0 }

/-- `Player::should_draw_graphic`. -/
def should_draw_graphic (p : Player) : Bool := decide (p.ctr.value = 39)

/-- `Player::should_draw_copy`. -/
def should_draw_copy (p : Player) : Bool :=
  let count := p.ctr.value
  (decide (count = 3) && (decide (p.nusiz = 0b001) || decide (p.nusiz = 0b011))) ||
    (decide (count = 7) &&
      (decide (p.nusiz = 0b010) || decide (p.nusiz = 0b011) || decide (p.nusiz = 0b110))) ||
    (decide (count = 15) && (decide (p.nusiz = 0b100) || decide (p.nusiz = 0b110)))

/-- `Player::reset`. -/
def reset (p : Player) : Player :=
  let p := { p with ctr := p.ctr.reset }
  if p.should_draw_graphic || p.should_draw_copy then
    { p with scan_counter :=
        { p.scan_counter with bit_idx := some (-p.init_delay), bit_copies_written := 0 } }
  else p

/-- `Player::pixel_bit`.  Only ever invoked with `bit_idx` in `[0, 8)`, so
the `isize` shift amounts are taken via `Int.toNat`. -/
def pixel_bit (p : Player) : Bool :=
  match p.scan_counter.bit_idx with
  | some x =>
    let graphic := if p.vdel then p.old_value else p.graphic
    if p.horizontal_mirror then decide (graphic &&& (1 <<< x.toNat) ≠ 0)
    else decide (graphic &&& (1 <<< (7 - x).toNat) ≠ 0)
  | none => false

/-- `Player::tick_graphic_circuit`. -/
def tick_graphic_circuit (p : Player) : Player :=
  match p.scan_counter.bit_idx with
  | some idx =>
    if 0 ≤ idx ∧ idx < 8 then
      let bv := some p.pixel_bit
      let bcw := p.scan_counter.bit_copies_written + 1
      let bcw' := if bcw = p.size then 0 else bcw
      let idx' := if bcw = p.size then idx + 1 else idx
      let bi := if idx' = p.graphic_size then none else some idx'
      { p with scan_counter :=
          { bit_idx := bi, bit_copies_written := bcw', bit_value := bv } }
    else
      { p with scan_counter := { p.scan_counter with bit_idx := some (idx + 1) } }
  | none => { p with scan_counter := { p.scan_counter with bit_value := none } }

/-- `Player::start_hmove`. -/
def start_hmove (p : Player) : Player :=
  ({ p with ctr := p.ctr.start_hmove p.hmove_offset }).tick_graphic_circuit

/-- `Player::get_color` (reads the shared color registers). -/
def get_color (p : Player) (colors : Colors) : Option Nat :=
  match p.scan_counter.bit_value with
  | some true =>
    some (match p.player with
      | .Player0 => colors.colup0
      | .Player1 => colors.colup1)
  | _ => none

end Player

/-! ### `src/tia/missile.rs` -/

/-- `struct Missile`. -/
structure Missile where
  init_delay : Int
  graphic_size : Int
  hmove_offset : Nat
  ctr : Counter
  scan_counter : ScanCounter
  nusiz : Nat
  enabled : Bool
  size : Nat
  copies : Nat
  sibling_player : PlayerType
  deriving Repr, DecidableEq

namespace Missile

/-- `Missile::new`. -/
def new (sibling_player : PlayerType) (init_delay graphic_size : Int) : Missile :=
  { sibling_player := sibling_player, enabled := false, hmove_offset := 0,
    nusiz := 0, size := 0, copies := 0, ctr := Counter.new 40 39,
    scan_counter := ScanCounter.default,
    init_delay := init_delay, graphic_size := graphic_size }

/-- `Missile::set_enabled`. -/
def set_enabled (m : Missile) (en : Bool) : Missile := { m with enabled := en }

/-- `Missile::set_hmove_value`. -/
def set_hmove_value (m : Missile) (v : Nat) : Missile := { m with hmove_offset := v }

/-- `Missile::set_nusiz`. -/
def set_nusiz (m : Missile) (val : Nat) : Missile :=
  { m with nusiz := val, size := 1 <<< ((val &&& 0b00110000) >>> 4),
           copies := val &&& 0x07 }

/-- `Missile::hmclr`. -/
def hmclr (m : Missile) : Missile := { m with hmove_offset := 0 }

/-- `Missile::should_draw_graphic`. -/
def should_draw_graphic (m : Missile) : Bool := decide (m.ctr.value = 39)

/-- `Missile::should_draw_copy`. -/
def should_draw_copy (m : Missile) : Bool :=
  let count := m.ctr.value
  (decide (count = 3) && (decide (m.copies = 0b001) || decide (m.copies = 0b011))) ||
    (decide (count = 7) &&
      (decide (m.copies = 0b010) || decide (m.copies = 0b011) || decide (m.copies = 0b110))) ||
    (decide (count = 15) && (decide (m.copies = 0b100) || decide (m.copies = 0b110)))

/-- `Missile::pixel_bit`. -/
def pixel_bit (m : Missile) : Bool := m.enabled

/-- `Missile::tick_graphic_circuit`. -/
def tick_graphic_circuit (m : Missile) : Missile :=
  match m.scan_counter.bit_idx with
  | some idx =>
    if 0 ≤ idx ∧ idx < 8 then
      let bv := some m.pixel_bit
      let bcw := m.scan_counter.bit_copies_written + 1
      let bcw' := if bcw = m.size then 0 else bcw
      let idx' := if bcw = m.size then idx + 1 else idx
      let bi := if idx' = m.graphic_size then none else some idx'
      { m with scan_counter :=
          { bit_idx := bi, bit_copies_written := bcw', bit_value := bv } }
    else
      { m with scan_counter := { m.scan_counter with bit_idx := some (idx + 1) } }
  | none => { m with scan_counter := { m.scan_counter with bit_value := none } }

/-- `Missile::reset_scan_counter`. -/
def reset_scan_counter (m : Missile) : Missile :=
  { m with scan_counter :=
      { m.scan_counter with bit_idx := some (-m.init_delay), bit_copies_written := 0 } }

/-- `Missile::reset`. -/
def reset (m : Missile) : Missile :=
  let m := { m with ctr := m.ctr.reset }
  if m.should_draw_graphic || m.should_draw_copy then m.reset_scan_counter else m

/-- `Missile::start_hmove`. -/
def start_hmove (m : Missile) : Missile :=
  ({ m with ctr := m.ctr.start_hmove m.hmove_offset }).tick_graphic_circuit

/-- `Missile::reset_to_player` (reads the sibling player's counter). -/
def reset_to_player (m : Missile) (player : Player) : Missile :=
  { m with ctr := m.ctr.reset_to player.ctr.internal_value }

/-- `Missile::get_color`. -/
def get_color (m : Missile) (colors : Colors) : Option Nat :=
  match m.scan_counter.bit_value with
  | some bit_value =>
    if bit_value then
      some (match m.sibling_player with
        | .Player0 => colors.colup0
        | .Player1 => colors.colup1)
    else none
  | none => none

end Missile

/-! ### `src/tia/ball.rs` -/

/-- `struct Ball`. -/
structure Ball where
  init_delay : Int
  graphic_size : Int
  hmove_offset : Nat
  ctr : Counter
  enabled : Bool
  nusiz : Nat
  vdel : Bool
  old_value : Bool
  scan_counter : ScanCounter
  deriving Repr, DecidableEq

namespace Ball

/-- `Ball::new`. -/
def new (init_delay graphic_size : Int) : Ball :=
  { hmove_offset := 0, ctr := Counter.new 40 39, enabled := false, nusiz := 1,
    vdel := false, old_value := false, scan_counter := ScanCounter.default,
    init_delay := init_delay, graphic_size := graphic_size }

/-- `Ball::set_enabled`. -/
def set_enabled (b : Ball) (v : Bool) : Ball := { b with enabled := v }

/-- `Ball::set_hmove_value`. -/
def set_hmove_value (b : Ball) (v : Nat) : Ball := { b with hmove_offset := v }

/-- `Ball::set_vdel`. -/
def set_vdel (b : Ball) (v : Bool) : Ball := { b with vdel := v }

/-- `Ball::set_vdel_value`. -/
def set_vdel_value (b : Ball) : Ball := { b with old_value := b.enabled }

/-- `Ball::set_nusiz`. -/
def set_nusiz (b : Ball) (size : Nat) : Ball := { b with nusiz := size }

/-- `Ball::hmclr`. -/
def hmclr (b : Ball) : Ball := { b with hmove_offset := 0 }

/-- `Ball::should_draw_graphic`. -/
def should_draw_graphic (b : Ball) : Bool := decide (b.ctr.value = 39)

/-- `Ball::should_draw_copy`. -/
def should_draw_copy (_b : Ball) : Bool := false

/-- `Ball::pixel_bit`. -/
def pixel_bit (b : Ball) : Bool := if b.vdel then b.old_value else b.enabled

/-- `Ball::tick_graphic_circuit` (`size()` is `nusiz`). -/
def tick_graphic_circuit (b : Ball) : Ball :=
  match b.scan_counter.bit_idx with
  | some idx =>
    if 0 ≤ idx ∧ idx < 8 then
      let bv := some b.pixel_bit
      let bcw := b.scan_counter.bit_copies_written + 1
      let bcw' := if bcw = b.nusiz then 0 else bcw
      let idx' := if bcw = b.nusiz then idx + 1 else idx
      let bi := if idx' = b.graphic_size then none else some idx'
      { b with scan_counter :=
          { bit_idx := bi, bit_copies_written := bcw', bit_value := bv } }
    else
      { b with scan_counter := { b.scan_counter with bit_idx := some (idx + 1) } }
  | none => { b with scan_counter := { b.scan_counter with bit_value := none } }

/-- `Ball::reset`. -/
def reset (b : Ball) : Ball :=
  let b := { b with ctr := b.ctr.reset }
  if b.should_draw_graphic || b.should_draw_copy then
    { b with scan_counter :=
        { b.scan_counter with bit_idx := some (-b.init_delay), bit_copies_written := 0 } }
  else b

/-- `Ball::start_hmove`. -/
def start_hmove (b : Ball) : Ball :=
  ({ b with ctr := b.ctr.start_hmove b.hmove_offset }).tick_graphic_circuit

/-- `Ball::get_color`. -/
def get_color (b : Ball) (colors : Colors) : Option Nat :=
  match b.scan_counter.bit_value with
  | some true => some colors.colupf
  | _ => none

end Ball

/-! ### `src/tia/playfield.rs` -/

/-- The loop body of `fn reverse_bit_order` (8 iterations). -/
def reverseBitsAux : Nat → Nat → Nat → Nat
  | 0, _, result => result
  | k + 1, value, result =>
    reverseBitsAux k (value >>> 1) ((result <<< 1) ||| (value &&& 1))

/-- `fn reverse_bit_order(value: u8) -> u8` from `playfield.rs`. -/
def reverse_bit_order (value : Nat) : Nat := reverseBitsAux 8 value 0

/-- `struct Playfield` (the 20-bit `PlayfieldData` bitfield is kept as its
three components `pf0`/`pf1`/`pf2`; colors handle factored out). -/
structure Playfield where
  ctr : Counter
  pf0 : Nat
  pf1 : Nat
  pf2 : Nat
  horizontal_mirror : Bool
  score_mode : Bool
  priority : Bool
  graphic_bit_value : Option Nat
  deriving Repr, DecidableEq

namespace Playfield

/-- `Playfield::new`. -/
def new : Playfield :=
  { ctr := Counter.default, pf0 := 0, pf1 := 0, pf2 := 0,
    horizontal_mirror := false, score_mode := false, priority := false,
    graphic_bit_value := none }

/-- `Playfield::set_pf0` (big-endian nibble: bit-reversed, low 4 bits). -/
def set_pf0 (pf : Playfield) (val : Nat) : Playfield :=
  { pf with pf0 := reverse_bit_order val &&& 0x0f }

/-- `Playfield::set_pf1` (little-endian byte: stored as-is). -/
def set_pf1 (pf : Playfield) (val : Nat) : Playfield := { pf with pf1 := val }

/-- `Playfield::set_pf2` (big-endian byte: bit-reversed). -/
def set_pf2 (pf : Playfield) (val : Nat) : Playfield :=
  { pf with pf2 := reverse_bit_order val }

/-- `Playfield::set_control` (`score_mode` is computed from the *new*
`priority`, which is assigned first in the source). -/
def set_control (pf : Playfield) (val : Nat) : Playfield :=
  let priority := decide (val &&& 0x04 ≠ 0)
  { pf with horizontal_mirror := decide (val &&& 0x01 ≠ 0),
            priority := priority,
            score_mode := decide (val &&& 0x02 ≠ 0) && !priority }

/-- `Playfield::get_color`. -/
def get_color (pf : Playfield) : Option Nat := pf.graphic_bit_value

end Playfield

/-! ### `src/tia/mod.rs` -/

/-- `struct TIA` (the scanline pixel buffer and the `Rc` color handle are
the only fields not carried here: the pixel buffer is touched only by
`TIA::clock`, which is outside the scope of this embedding, and the shared
color block is stored directly as `colors`). -/
structure TIA where
  ctr : Counter
  vsync : Bool
  vblank : Nat
  late_reset_hblank : Bool
  wsync : Bool
  inpt4_port : Bool
  inpt4_latch : Bool
  cxm0p : Nat
  cxm1p : Nat
  cxp0fb : Nat
  cxp1fb : Nat
  cxm0fb : Nat
  cxm1fb : Nat
  cxblpf : Nat
  cxppmm : Nat
  colors : Colors
  pf : Playfield
  p0 : Player
  p1 : Player
  m0 : Missile
  m1 : Missile
  bl : Ball
  deriving Repr, DecidableEq

namespace TIA

/-- `TIA::default()` (`BALL_INIT_DELAY = 4`, `MISSILE_INIT_DELAY = 4`,
`PLAYER_INIT_DELAY = 5`, graphic sizes 1/1/8, HSYNC counter period 57). -/
def default : TIA :=
  { ctr := Counter.new 57 0,
    vsync := false, vblank := 0, late_reset_hblank := false, wsync := false,
    inpt4_port := false, inpt4_latch := true,
    cxm0p := 0, cxm1p := 0, cxp0fb := 0, cxp1fb := 0,
    cxm0fb := 0, cxm1fb := 0, cxblpf := 0, cxppmm := 0,
    colors := Colors.new,
    pf := Playfield.new,
    bl := Ball.new 4 1,
    m0 := Missile.new .Player0 4 1,
    m1 := Missile.new .Player1 4 1,
    p0 := Player.new .Player0 5 8,
    p1 := Player.new .Player1 5 8 }

/-- `TIA::update_collisions`, verbatim — including the arms at
`tia/mod.rs:291-296` that OR the M1-BL and M1-PF collisions into `cxm0fb`
(instead of `cxm1fb`). -/
def update_collisions (t : TIA) : TIA :=
  let t := if (t.m0.get_color t.colors).isSome && (t.p0.get_color t.colors).isSome then
    { t with cxm0p := t.cxm0p ||| 0x40 } else t
  let t := if (t.m0.get_color t.colors).isSome && (t.p1.get_color t.colors).isSome then
    { t with cxm0p := t.cxm0p ||| 0x80 } else t
  let t := if (t.m1.get_color t.colors).isSome && (t.p0.get_color t.colors).isSome then
    { t with cxm1p := t.cxm1p ||| 0x40 } else t
  let t := if (t.m1.get_color t.colors).isSome && (t.p1.get_color t.colors).isSome then
    { t with cxm1p := t.cxm1p ||| 0x80 } else t
  let t := if (t.p0.get_color t.colors).isSome && (t.bl.get_color t.colors).isSome then
    { t with cxp0fb := t.cxp0fb ||| 0x40 } else t
  let t := if (t.p0.get_color t.colors).isSome && (t.pf.get_color).isSome then
    { t with cxp0fb := t.cxp0fb ||| 0x80 } else t
  let t := if (t.p1.get_color t.colors).isSome && (t.bl.get_color t.colors).isSome then
    { t with cxp1fb := t.cxp1fb ||| 0x40 } else t
  let t := if (t.p1.get_color t.colors).isSome && (t.pf.get_color).isSome then
    { t with cxp1fb := t.cxp1fb ||| 0x80 } else t
  let t := if (t.m0.get_color t.colors).isSome && (t.bl.get_color t.colors).isSome then
    { t with cxm0fb := t.cxm0fb ||| 0x40 } else t
  let t := if (t.m0.get_color t.colors).isSome && (t.pf.get_color).isSome then
    { t with cxm0fb := t.cxm0fb ||| 0x80 } else t
  let t := if (t.m1.get_color t.colors).isSome && (t.bl.get_color t.colors).isSome then
    { t with cxm0fb := t.cxm0fb ||| 0x40 } else t
  let t := if (t.m1.get_color t.colors).isSome && (t.pf.get_color).isSome then
    { t with cxm0fb := t.cxm0fb ||| 0x80 } else t
  let t := if (t.bl.get_color t.colors).isSome && (t.pf.get_color).isSome then
    { t with cxblpf := t.cxblpf ||| 0x80 } else t
  let t := if (t.m0.get_color t.colors).isSome && (t.m1.get_color t.colors).isSome then
    { t with cxppmm := t.cxppmm ||| 0x40 } else t
  let t := if (t.p0.get_color t.colors).isSome && (t.p1.get_color t.colors).isSome then
    { t with cxppmm := t.cxppmm ||| 0x80 } else t
  t

/-- `TIA::reset_latches`. -/
def reset_latches (t : TIA) : TIA := { t with inpt4_latch := true }

/-- `<TIA as Bus>::read`: never fails; unmatched addresses read as 0. -/
def read (t : TIA) (address : Nat) : Nat × TIA :=
  if address = 0x0030 then (t.cxm0p, t)
  else if address = 0x0031 then (t.cxm1p, t)
  else if address = 0x0032 then (t.cxp0fb, t)
  else if address = 0x0033 then (t.cxp1fb, t)
  else if address = 0x0034 then (t.cxm0fb, t)
  else if address = 0x0035 then (t.cxm1fb, t)
  else if address = 0x0036 then (t.cxblpf, t)
  else if address = 0x0037 then (t.cxppmm, t)
  else if address = 0x003C then
    let level := t.inpt4_port
    let level := if t.vblank &&& 0x40 ≠ 0 then level && t.inpt4_latch else level
    (if level then 0x80 else 0x00, t)
  else (0, t)

/-- `<TIA as Bus>::write`: the full register decode of `tia/mod.rs`.  The
six audio arms (`0x15`–`0x1A`) only emit a `debug!` log line in the source
and change no state; unmatched addresses are ignored. -/
def write (t : TIA) (address val : Nat) : TIA :=
  if address = 0x0000 then { t with vsync := decide (val &&& 0x02 ≠ 0) }
  else if address = 0x0001 then
    let t := { t with vblank := val }
    if val &&& 0x80 ≠ 0 then t.reset_latches else t
  else if address = 0x0002 then { t with wsync := true }
  else if address = 0x0003 then { t with ctr := t.ctr.reset_to_h1 }
  else if address = 0x0006 then
    { t with colors := { t.colors with colup0 := val &&& 0xfe } }
  else if address = 0x0007 then
    { t with colors := { t.colors with colup1 := val &&& 0xfe } }
  else if address = 0x0008 then
    { t with colors := { t.colors with colupf := val &&& 0xfe } }
  else if address = 0x0009 then
    { t with colors := { t.colors with colubk := val &&& 0xfe } }
  else if address = 0x000a then
    { t with pf := t.pf.set_control val,
             bl := t.bl.set_nusiz (1 <<< ((val &&& 0b00110000) >>> 4)) }
  else if address = 0x000d then { t with pf := t.pf.set_pf0 val }
  else if address = 0x000e then { t with pf := t.pf.set_pf1 val }
  else if address = 0x000f then { t with pf := t.pf.set_pf2 val }
  else if address = 0x0004 then
    { t with m0 := t.m0.set_nusiz val, p0 := t.p0.set_nusiz (val &&& 0b00000111) }
  else if address = 0x0005 then
    { t with m1 := t.m1.set_nusiz val, p1 := t.p1.set_nusiz (val &&& 0b00000111) }
  else if address = 0x000b then
    { t with p0 := t.p0.set_horizontal_mirror (decide (val &&& 0b00001000 ≠ 0)) }
  else if address = 0x000c then
    { t with p1 := t.p1.set_horizontal_mirror (decide (val &&& 0b00001000 ≠ 0)) }
  else if address = 0x0010 then { t with p0 := t.p0.reset }
  else if address = 0x0011 then { t with p1 := t.p1.reset }
  else if address = 0x0012 then { t with m0 := t.m0.reset }
  else if address = 0x0013 then { t with m1 := t.m1.reset }
  else if address = 0x0014 then { t with bl := t.bl.reset }
  else if address = 0x0015 then t
  else if address = 0x0016 then t
  else if address = 0x0017 then t
  else if address = 0x0018 then t
  else if address = 0x0019 then t
  else if address = 0x001a then t
  else if address = 0x001b then
    { t with p0 := t.p0.set_graphic val, p1 := t.p1.set_vdel_value }
  else if address = 0x001c then
    { t with p1 := t.p1.set_graphic val, p0 := t.p0.set_vdel_value,
             bl := t.bl.set_vdel_value }
  else if address = 0x001d then { t with m0 := t.m0.set_enabled (decide (val &&& 0x02 ≠ 0)) }
  else if address = 0x001e then { t with m1 := t.m1.set_enabled (decide (val &&& 0x02 ≠ 0)) }
  else if address = 0x001f then { t with bl := t.bl.set_enabled (decide (val &&& 0x02 ≠ 0)) }
  else if address = 0x0020 then { t with p0 := t.p0.set_hmove_value val }
  else if address = 0x0021 then { t with p1 := t.p1.set_hmove_value val }
  else if address = 0x0022 then { t with m0 := t.m0.set_hmove_value val }
  else if address = 0x0023 then { t with m1 := t.m1.set_hmove_value val }
  else if address = 0x0024 then { t with bl := t.bl.set_hmove_value val }
  else if address = 0x0025 then { t with p0 := t.p0.set_vdel (decide (val &&& 0x01 ≠ 0)) }
  else if address = 0x0026 then { t with p1 := t.p1.set_vdel (decide (val &&& 0x01 ≠ 0)) }
  else if address = 0x0027 then { t with bl := t.bl.set_vdel (decide (val &&& 0x01 ≠ 0)) }
  else if address = 0x0028 then
    (if val &&& 0x02 ≠ 0 then { t with m0 := t.m0.reset_to_player t.p0 } else t)
  else if address = 0x0029 then
    (if val &&& 0x02 ≠ 0 then { t with m1 := t.m1.reset_to_player t.p1 } else t)
  else if address = 0x002a then
    { t with bl := t.bl.start_hmove, m0 := t.m0.start_hmove,
             m1 := t.m1.start_hmove, p0 := t.p0.start_hmove,
             p1 := t.p1.start_hmove, late_reset_hblank := true }
  else if address = 0x002b then
    { t with bl := t.bl.hmclr, m0 := t.m0.hmclr, m1 := t.m1.hmclr,
             p0 := t.p0.hmclr, p1 := t.p1.hmclr }
  else if address = 0x002C then
    { t with cxm0p := 0, cxm1p := 0, cxp0fb := 0, cxp1fb := 0,
             cxm0fb := 0, cxm1fb := 0, cxblpf := 0, cxppmm := 0 }
  else t

end TIA

/-! ### `src/tia/audio/register.rs` and `src/tia/audio/channel.rs`

Note: `tia/mod.rs` declares no `mod audio` — the audio module is dead code,
never reached from the TIA register interface. -/

/-- `struct Registers` from `audio/register.rs`. -/
structure Registers where
  control : Nat
  freq : Nat
  volume : Nat
  deriving Repr, DecidableEq

/-- `struct Channel` from `audio/channel.rs`. -/
structure Channel where
  registers : Registers
  registers_changed : Bool
  clock_enable : Bool
  noise_feedback : Bool
  noise_counter_bit4 : Bool
  pulse_counter_hold : Bool
  div_counter : Nat
  pulse_counter : Nat
  noise_counter : Nat
  actual_vol : Nat
  deriving Repr, DecidableEq

namespace Channel

/-- `Channel::phase1`: advance the noise/pulse network on an enabled clock,
then latch the output volume — the low pulse-counter bit times the volume
register (`!x` on `u8` is `x ^^^ 0xff`). -/
def phase1 (ch : Channel) : Channel :=
  let ch' :=
    if ch.clock_enable then
      let pulse_feedback :=
        if ch.registers.control >>> 2 = 0x00 then
          let n := if ch.pulse_counter &&& 0x02 ≠ 0 then 1 else 0
          decide ((n ^^^ (ch.pulse_counter &&& 0x01)) ≠ 0) &&
            decide (ch.pulse_counter ≠ 0x0a) &&
            decide (ch.registers.control &&& 0x03 ≠ 0)
        else if ch.registers.control >>> 2 = 0x01 then
          decide (ch.pulse_counter &&& 0x08 = 0)
        else if ch.registers.control >>> 2 = 0x02 then
          !ch.noise_counter_bit4
        else if ch.registers.control >>> 2 = 0x03 then
          !(decide (ch.pulse_counter &&& 0x02 ≠ 0) ||
            decide (ch.pulse_counter &&& 0x0e = 0))
        else false
      let nc := ch.noise_counter >>> 1
      let nc := if ch.noise_feedback then nc ||| 0x10 else nc
      let ch := { ch with noise_counter := nc }
      if !ch.pulse_counter_hold then
        let pc := ((ch.pulse_counter >>> 1) ^^^ 0xff) &&& 0x07
        let pc := if pulse_feedback then pc ||| 0x08 else pc
        { ch with pulse_counter := pc }
      else ch
    else ch
  { ch' with actual_vol := (ch'.pulse_counter &&& 0x01) * ch'.registers.volume }

end Channel

/-- C1 (code-bug witness): on a pixel where missile 1 and the ball (or
missile 1 and the playfield) both report a color, `update_collisions` sets
the corresponding bit in `cxm0fb` — missile 0's register — and leaves
`cxm1fb`, the register documented as "read collision M1-PF, M1-BL", at 0. -/
theorem collision_m1_latch_bug :
    (((({ TIA.default with
        m1 := { TIA.default.m1 with scan_counter :=
          { bit_idx := none, bit_copies_written := 0, bit_value := some true } },
        bl := { TIA.default.bl with scan_counter :=
          { bit_idx := none, bit_copies_written := 0, bit_value := some true } } }
        : TIA).update_collisions).cxm1fb = 0) ∧
      ((({ TIA.default with
        m1 := { TIA.default.m1 with scan_counter :=
          { bit_idx := none, bit_copies_written := 0, bit_value := some true } },
        bl := { TIA.default.bl with scan_counter :=
          { bit_idx := none, bit_copies_written := 0, bit_value := some true } } }
        : TIA).update_collisions).cxm0fb = 0x40)) ∧
      (((({ TIA.default with
        m1 := { TIA.default.m1 with scan_counter :=
          { bit_idx := none, bit_copies_written := 0, bit_value := some true } },
        pf := { TIA.default.pf with graphic_bit_value := some 5 } }
        : TIA).update_collisions).cxm1fb = 0) ∧
      ((({ TIA.default with
        m1 := { TIA.default.m1 with scan_counter :=
          { bit_idx := none, bit_copies_written := 0, bit_value := some true } },
        pf := { TIA.default.pf with graphic_bit_value := some 5 } }
        : TIA).update_collisions).cxm0fb = 0x80)) := by
  exact ⟨⟨by decide, by decide⟩, ⟨by decide, by decide⟩⟩

/-- C10: writing any value to any of the six TIA audio register addresses
`0x15`–`0x1A` leaves the entire TIA state unchanged (the source arms only
emit a `debug!` line), and the (dead-code) audio channel's per-tick output
is the low pulse-counter bit times the (unchanged) volume register. -/
theorem tia_audio_write_noop :
    (∀ (t : TIA) (a v : Nat), 0x15 ≤ a → a ≤ 0x1A → t.write a v = t) ∧
      (∀ ch : Channel,
        (ch.phase1).actual_vol =
          ((ch.phase1).pulse_counter &&& 0x01) * ch.registers.volume) := by
  constructor
  · intro t a v h1 h2
    interval_cases a <;> rfl
  · intro ch
    show (Channel.phase1 ch).actual_vol =
      ((Channel.phase1 ch).pulse_counter &&& 0x01) * ch.registers.volume
    cases hce : ch.clock_enable <;>
      cases hph : ch.pulse_counter_hold <;>
      simp [Channel.phase1, hce, hph]

/-- C10 (witness): a concrete audio write (`AUDC0`-range address `0x15`,
value 7) on the default TIA is the identity. -/
theorem tia_audio_write_noop_witness :
    TIA.default.write 0x15 7 = TIA.default :=
  tia_audio_write_noop.1 TIA.default 0x15 7 (by decide) (by decide)

/-! ## `src/memory.rs`: the fallible decoder -/

/-- `enum Operation` from `memory.rs`. -/
inductive Operation where
  | Read
  | Write
  deriving Repr, DecidableEq

/-- `enum TiaReadAddress` from `memory.rs`. -/
inductive TiaReadAddress where
  | CXM0P
  | CXM1P
  | CXP0FB
  | CXP1FB
  | CXM0FB
  | CXM1FB
  | CXBLPF
  | CXPPMM
  | INPT0
  | INPT1
  | INPT2
  | INPT3
  | INPT4
  | INPT5
  deriving Repr, DecidableEq

/-- `TiaReadAddress::from_address`. -/
def TiaReadAddress.from_address (address : Nat) : Option TiaReadAddress :=
  match address with
  | 0x30 => some .CXM0P
  | 0x31 => some .CXM1P
  | 0x32 => some .CXP0FB
  | 0x33 => some .CXP1FB
  | 0x34 => some .CXM0FB
  | 0x35 => some .CXM1FB
  | 0x36 => some .CXBLPF
  | 0x37 => some .CXPPMM
  | 0x38 => some .INPT0
  | 0x39 => some .INPT1
  | 0x3A => some .INPT2
  | 0x3B => some .INPT3
  | 0x3C => some .INPT4
  | 0x3D => some .INPT5
  | _ => none

/-- `enum TiaWriteAddress` from `memory.rs`. -/
inductive TiaWriteAddress where
  | VSYNC
  | VBLANK
  | WSYNC
  | RSYNC
  | NUSIZ0
  | NUSIZ1
  | COLUP0
  | COLUP1
  | COLUPF
  | COLUBK
  | CTRLPF
  | REFP0
  | REFP1
  | PF0
  | PF1
  | PF2
  | RESP0
  | RESP1
  | RESM0
  | RESM1
  | RESBL
  | AUDC0
  | AUDC1
  | AUDF0
  | AUDF1
  | AUDV0
  | AUDV1
  | GRP0
  | GRP1
  | ENAM0
  | ENAM1
  | ENABL
  | HMP0
  | HMP1
  | HMM0
  | HMM1
  | HMBL
  | VDELP0
  | VDELP1
  | VDELBL
  | RESMP0
  | RESMP1
  | HMOVE
  | HMCLR
  | CXCLR
  deriving Repr, DecidableEq

/-- `TiaWriteAddress::from_address`. -/
def TiaWriteAddress.from_address (address : Nat) : Option TiaWriteAddress :=
  match address with
  | 0x00 => some .VSYNC
  | 0x01 => some .VBLANK
  | 0x02 => some .WSYNC
  | 0x03 => some .RSYNC
  | 0x04 => some .NUSIZ0
  | 0x05 => some .NUSIZ1
  | 0x06 => some .COLUP0
  | 0x07 => some .COLUP1
  | 0x08 => some .COLUPF
  | 0x09 => some .COLUBK
  | 0x0A => some .CTRLPF
  | 0x0B => some .REFP0
  | 0x0C => some .REFP1
  | 0x0D => some .PF0
  | 0x0E => some .PF1
  | 0x0F => some .PF2
  | 0x10 => some .RESP0
  | 0x11 => some .RESP1
  | 0x12 => some .RESM0
  | 0x13 => some .RESM1
  | 0x14 => some .RESBL
  | 0x15 => some .AUDC0
  | 0x16 => some .AUDC1
  | 0x17 => some .AUDF0
  | 0x18 => some .AUDF1
  | 0x19 => some .AUDV0
  | 0x1A => some .AUDV1
  | 0x1B => some .GRP0
  | 0x1C => some .GRP1
  | 0x1D => some .ENAM0
  | 0x1E => some .ENAM1
  | 0x1F => some .ENABL
  | 0x20 => some .HMP0
  | 0x21 => some .HMP1
  | 0x22 => some .HMM0
  | 0x23 => some .HMM1
  | 0x24 => some .HMBL
  | 0x25 => some .VDELP0
  | 0x26 => some .VDELP1
  | 0x27 => some .VDELBL
  | 0x28 => some .RESMP0
  | 0x29 => some .RESMP1
  | 0x2A => some .HMOVE
  | 0x2B => some .HMCLR
  | 0x2C => some .CXCLR
  | _ => none

/-- `enum MemoryMirrors` from `memory.rs`. -/
inductive MemoryMirrors where
  | Cartridge (offset : Nat)
  | TiaRead (a : TiaReadAddress)
  | TiaWrite (a : TiaWriteAddress)
  | PiaIo (a : PiaAddress)
  | PiaRam (a : PiaAddress)
  deriving Repr, DecidableEq

/-- Outcome of `MemoryMirrors::from`: `ok` is `Ok(...)`; `errTiaRead a` /
`errTiaWrite a` are the two documented `Err("Invalid TIA Read/Write
address: {a}")` returns; `errDefault` is the final `_ => Err("Invalid
address")` arm; `crash` is the `PiaAddress::from_address(..).unwrap()`
panic. -/
inductive DecodeOutcome where
  | ok (m : MemoryMirrors)
  | errTiaRead (a : Nat)
  | errTiaWrite (a : Nat)
  | errDefault
  | crash
  deriving Repr, DecidableEq

/-- `MemoryMirrors::from(address, op)` from `memory.rs` (`A12 = 0x1000`,
`A9 = 0x200`, `A7 = 0x80`), guards checked in source order. -/
def MemoryMirrors.from (address : Nat) (op : Operation) : DecodeOutcome :=
  if address &&& 0x1000 ≠ 0 then .ok (.Cartridge (address &&& 0xfff))
  else if address &&& (0x1000 ||| 0x200 ||| 0x80) = (0x200 ||| 0x80) then
    match PiaAddress.from_address (address &&& 0x2ff) with
    | some pa => .ok (.PiaIo pa)
    | none => .crash
  else if address &&& 0x80 = 0x80 then
    match PiaAddress.from_address (address &&& 0x7f) with
    | some pa => .ok (.PiaRam pa)
    | none => .crash
  else if address &&& 0x80 = 0 then
    match op with
    | .Read =>
      match TiaReadAddress.from_address ((address &&& 0x0f) ||| 0x30) with
      | some a => .ok (.TiaRead a)
      | none => .errTiaRead address
    | .Write =>
      match TiaWriteAddress.from_address (address &&& 0x3f) with
      | some a => .ok (.TiaWrite a)
      | none => .errTiaWrite address
  else .errDefault

/-! ## `src/bus.rs`: the infallible decoder and the outer bus -/

/-- `enum MemoryMirrors` from `bus.rs` (the decoder actually used by
`AtariBus`). -/
inductive BusMemoryMirrors where
  | Cartridge
  | Tia
  | PiaIo
  | PiaRam
  deriving Repr, DecidableEq

/-- `impl From<u16> for MemoryMirrors` from `bus.rs`; the final
`unreachable!()` arm is modelled as `none`. -/
def busMirrorsFrom (address : Nat) : Option BusMemoryMirrors :=
  if address &&& 0x1000 ≠ 0 then some .Cartridge
  else if address &&& (0x1000 ||| 0x200 ||| 0x80) = (0x200 ||| 0x80) then some .PiaIo
  else if address &&& 0x80 = 0x80 then some .PiaRam
  else if address &&& 0x80 = 0 then some .Tia
  else none

/-- `struct AtariBus` (the cartridge ROM image as a byte list plus the two
chips reached through the shared handles). -/
structure AtariBus where
  rom : List Nat
  tia : TIA
  riot : RIOT

namespace AtariBus

/-- `<AtariBus as Bus>::read`.  `self.rom[...]` is a panicking `Vec` index
(`none` when out of bounds); the RIOT paths inherit the `unwrap` failure of
`RIOT::read`. -/
def read (b : AtariBus) (address : Nat) : Option (Nat × AtariBus) :=
  match busMirrorsFrom address with
  | none => none
  | some .Cartridge => (b.rom.get? (address &&& 0xfff)).map (fun v => (v, b))
  | some .PiaIo =>
    (b.riot.read (address &&& 0x2ff)).map (fun vr => (vr.1, { b with riot := vr.2 }))
  | some .PiaRam =>
    (b.riot.read (address &&& 0x7f)).map (fun vr => (vr.1, { b with riot := vr.2 }))
  | some .Tia =>
    let vt := b.tia.read ((address &&& 0x0f) ||| 0x30)
    some (vt.1, { b with tia := vt.2 })

/-- `<AtariBus as Bus>::write`. -/
def write (b : AtariBus) (address val : Nat) : Option AtariBus :=
  match busMirrorsFrom address with
  | none => none
  | some .Cartridge =>
    if address &&& 0xfff < b.rom.length then
      some { b with rom := b.rom.set (address &&& 0xfff) val }
    else none
  | some .PiaIo =>
    (b.riot.write (address &&& 0x2ff) val).map (fun r => { b with riot := r })
  | some .PiaRam =>
    (b.riot.write (address &&& 0x7f) val).map (fun r => { b with riot := r })
  | some .Tia => some { b with tia := b.tia.write (address &&& 0x3f) val }

end AtariBus

/-- A single-bit mask yields either 0 or the mask itself. -/
lemma and_single_bit (a i : Nat) : a &&& 2 ^ i = 0 ∨ a &&& 2 ^ i = 2 ^ i := by
  rw [Nat.and_two_pow]
  cases a.testBit i <;> simp

/-- Distribute the three-line select mask `A12 | A9 | A7`. -/
lemma and_mask_1280 (a : Nat) :
    a &&& 0x1280 = (a &&& 0x1000) ||| ((a &&& 0x200) ||| (a &&& 0x80)) := by
  have h : (0x1280 : Nat) = 0x1000 ||| (0x200 ||| 0x80) := by decide
  rw [h, Nat.and_or_distrib_left, Nat.and_or_distrib_left]

/-- The four-way case split performed by the `bus.rs` decoder, with the
exact values of the three tested address lines in each case. -/
lemma busFrom_cases (a : Nat) :
    (a &&& 0x1000 = 0x1000 ∧ busMirrorsFrom a = some .Cartridge) ∨
      (a &&& 0x1000 = 0 ∧ a &&& 0x200 = 0x200 ∧ a &&& 0x80 = 0x80 ∧
        busMirrorsFrom a = some .PiaIo) ∨
      (a &&& 0x1000 = 0 ∧ a &&& 0x200 = 0 ∧ a &&& 0x80 = 0x80 ∧
        busMirrorsFrom a = some .PiaRam) ∨
      (a &&& 0x1000 = 0 ∧ a &&& 0x80 = 0 ∧ busMirrorsFrom a = some .Tia) := by
  have hd := and_mask_1280 a
  have hm1 : ((0x1000 ||| 0x200 ||| 0x80 : Nat)) = 0x1280 := by decide
  have hm2 : ((0x200 ||| 0x80 : Nat)) = 0x280 := by decide
  have h12 : a &&& 0x1000 = 0 ∨ a &&& 0x1000 = 0x1000 := by
    have := and_single_bit a 12; norm_num at this; exact this
  have h9 : a &&& 0x200 = 0 ∨ a &&& 0x200 = 0x200 := by
    have := and_single_bit a 9; norm_num at this; exact this
  have h7 : a &&& 0x80 = 0 ∨ a &&& 0x80 = 0x80 := by
    have := and_single_bit a 7; norm_num at this; exact this
  rcases h12 with h12 | h12
  · rcases h7 with h7 | h7
    · -- A12 = 0, A7 = 0: TIA
      refine Or.inr (Or.inr (Or.inr ⟨h12, h7, ?_⟩))
      unfold busMirrorsFrom
      rcases h9 with h9 | h9 <;>
        rw [if_neg (by omega),
          if_neg (by rw [hm1, hm2, hd, h12, h9, h7]; decide),
          if_neg (by omega), if_pos h7]
    · rcases h9 with h9 | h9
      · -- A12 = 0, A9 = 0, A7 = 1: PIA RAM
        refine Or.inr (Or.inr (Or.inl ⟨h12, h9, h7, ?_⟩))
        unfold busMirrorsFrom
        rw [if_neg (by omega),
          if_neg (by rw [hm1, hm2, hd, h12, h9, h7]; decide), if_pos h7]
      · -- A12 = 0, A9 = 1, A7 = 1: PIA I/O
        refine Or.inr (Or.inl ⟨h12, h9, h7, ?_⟩)
        unfold busMirrorsFrom
        rw [if_neg (by omega), if_pos (by rw [hm1, hm2, hd, h12, h9, h7]; decide)]
  · -- A12 = 1: cartridge
    refine Or.inl ⟨h12, ?_⟩
    unfold busMirrorsFrom
    rw [if_pos (by omega)]

/-- Low PIA addresses (≤ `0x7F`) always decode to RAM. -/
lemma pia_from_low (x : Nat) (hx : x ≤ 0x7F) :
    PiaAddress.from_address x = some (.RAM x) := by
  unfold PiaAddress.from_address
  rw [if_pos hx]

/-- `RIOT::read` fails exactly on the unwrap of an undecodable offset. -/
lemma riot_read_none_iff (r : RIOT) (x : Nat) :
    r.read x = none ↔ PiaAddress.from_address x = none := by
  unfold RIOT.read
  cases h : PiaAddress.from_address x with
  | none => simp
  | some pa => cases pa <;> simp

/-- `RIOT::write` fails exactly on the unwrap of an undecodable offset. -/
lemma riot_write_none_iff (r : RIOT) (x v : Nat) :
    r.write x v = none ↔ PiaAddress.from_address x = none := by
  unfold RIOT.write
  cases h : PiaAddress.from_address x with
  | none => simp
  | some pa => cases pa <;> simp

/-- The same four-way case split for the fallible `memory.rs` decoder,
with the value it computes in each case. -/
lemma memFrom_eval (a : Nat) (op : Operation) :
    (a &&& 0x1000 = 0x1000 ∧
        MemoryMirrors.from a op = .ok (.Cartridge (a &&& 0xfff))) ∨
      (a &&& 0x1000 = 0 ∧ a &&& 0x200 = 0x200 ∧ a &&& 0x80 = 0x80 ∧
        MemoryMirrors.from a op =
          (match PiaAddress.from_address (a &&& 0x2ff) with
            | some pa => .ok (.PiaIo pa)
            | none => .crash)) ∨
      (a &&& 0x1000 = 0 ∧ a &&& 0x200 = 0 ∧ a &&& 0x80 = 0x80 ∧
        MemoryMirrors.from a op = .ok (.PiaRam (.RAM (a &&& 0x7f)))) ∨
      (a &&& 0x1000 = 0 ∧ a &&& 0x80 = 0 ∧
        MemoryMirrors.from a op =
          (match op with
            | .Read =>
              match TiaReadAddress.from_address ((a &&& 0x0f) ||| 0x30) with
              | some x => .ok (.TiaRead x)
              | none => .errTiaRead a
            | .Write =>
              match TiaWriteAddress.from_address (a &&& 0x3f) with
              | some x => .ok (.TiaWrite x)
              | none => .errTiaWrite a)) := by
  have hd := and_mask_1280 a
  have hm1 : ((0x1000 ||| 0x200 ||| 0x80 : Nat)) = 0x1280 := by decide
  have hm2 : ((0x200 ||| 0x80 : Nat)) = 0x280 := by decide
  have h12 : a &&& 0x1000 = 0 ∨ a &&& 0x1000 = 0x1000 := by
    have := and_single_bit a 12; norm_num at this; exact this
  have h9 : a &&& 0x200 = 0 ∨ a &&& 0x200 = 0x200 := by
    have := and_single_bit a 9; norm_num at this; exact this
  have h7 : a &&& 0x80 = 0 ∨ a &&& 0x80 = 0x80 := by
    have := and_single_bit a 7; norm_num at this; exact this
  rcases h12 with h12 | h12
  · rcases h7 with h7 | h7
    · refine Or.inr (Or.inr (Or.inr ⟨h12, h7, ?_⟩))
      unfold MemoryMirrors.from
      rcases h9 with h9 | h9 <;>
        rw [if_neg (by omega),
          if_neg (by rw [hm1, hm2, hd, h12, h9, h7]; decide),
          if_neg (by omega), if_pos h7]
    · rcases h9 with h9 | h9
      · refine Or.inr (Or.inr (Or.inl ⟨h12, h9, h7, ?_⟩))
        unfold MemoryMirrors.from
        rw [if_neg (by omega),
          if_neg (by rw [hm1, hm2, hd, h12, h9, h7]; decide), if_pos h7,
          pia_from_low (a &&& 0x7f) Nat.and_le_right]
      · refine Or.inr (Or.inl ⟨h12, h9, h7, ?_⟩)
        unfold MemoryMirrors.from
        rw [if_neg (by omega), if_pos (by rw [hm1, hm2, hd, h12, h9, h7]; decide)]
  · refine Or.inl ⟨h12, ?_⟩
    unfold MemoryMirrors.from
    rw [if_pos (by omega)]

/-- The bus decoder is total: its `unreachable!()` arm is never taken. -/
lemma busFrom_isSome (a : Nat) : (busMirrorsFrom a).isSome = true := by
  rcases busFrom_cases a with ⟨-, hc⟩ | ⟨-, -, -, hc⟩ | ⟨-, -, -, hc⟩ | ⟨-, -, hc⟩ <;>
    rw [hc] <;> rfl

/-- Characterization of the cartridge route. -/
lemma busFrom_cartridge_iff (a : Nat) :
    busMirrorsFrom a = some .Cartridge ↔ a &&& 0x1000 ≠ 0 := by
  rcases busFrom_cases a with ⟨h12, hc⟩ | ⟨h12, h9, h7, hc⟩ | ⟨h12, h9, h7, hc⟩ |
      ⟨h12, h7, hc⟩ <;>
    rw [hc] <;> simp <;> omega

/-- Characterization of the PIA I/O route. -/
lemma busFrom_piaio_iff (a : Nat) :
    busMirrorsFrom a = some .PiaIo ↔
      (a &&& 0x1000 = 0 ∧ a &&& 0x200 ≠ 0 ∧ a &&& 0x80 ≠ 0) := by
  rcases busFrom_cases a with ⟨h12, hc⟩ | ⟨h12, h9, h7, hc⟩ | ⟨h12, h9, h7, hc⟩ |
      ⟨h12, h7, hc⟩ <;>
    rw [hc] <;> simp <;> omega

/-- Characterization of the PIA RAM route. -/
lemma busFrom_piaram_iff (a : Nat) :
    busMirrorsFrom a = some .PiaRam ↔
      (a &&& 0x1000 = 0 ∧ a &&& 0x200 = 0 ∧ a &&& 0x80 ≠ 0) := by
  rcases busFrom_cases a with ⟨h12, hc⟩ | ⟨h12, h9, h7, hc⟩ | ⟨h12, h9, h7, hc⟩ |
      ⟨h12, h7, hc⟩ <;>
    rw [hc] <;> simp <;> omega

/-- Characterization of the TIA route. -/
lemma busFrom_tia_iff (a : Nat) :
    busMirrorsFrom a = some .Tia ↔ (a &&& 0x1000 = 0 ∧ a &&& 0x80 = 0) := by
  rcases busFrom_cases a with ⟨h12, hc⟩ | ⟨h12, h9, h7, hc⟩ | ⟨h12, h9, h7, hc⟩ |
      ⟨h12, h7, hc⟩ <;>
    rw [hc] <;> simp <;> omega

/-- The fallible decoder's default `Err("Invalid address")` arm is dead. -/
lemma memFrom_never_default (a : Nat) (op : Operation) :
    MemoryMirrors.from a op ≠ .errDefault := by
  rcases memFrom_eval a op with ⟨-, hm⟩ | ⟨-, -, -, hm⟩ | ⟨-, -, -, hm⟩ | ⟨-, -, hm⟩ <;>
    rw [hm]
  · simp
  · cases hpa : PiaAddress.from_address (a &&& 0x2ff) <;> simp
  · simp
  · cases op
    · cases hx : TiaReadAddress.from_address ((a &&& 0x0f) ||| 0x30) <;> simp
    · cases hx : TiaWriteAddress.from_address (a &&& 0x3f) <;> simp

/-- The fallible decoder panics (unwrap) exactly on PIA-I/O-selected
addresses whose masked offset is not a defined PIA register. -/
lemma memFrom_crash_iff (a : Nat) (op : Operation) :
    MemoryMirrors.from a op = .crash ↔
      (a &&& 0x1000 = 0 ∧ a &&& 0x200 ≠ 0 ∧ a &&& 0x80 ≠ 0 ∧
        PiaAddress.from_address (a &&& 0x2ff) = none) := by
  rcases memFrom_eval a op with ⟨h12, hm⟩ | ⟨h12, h9, h7, hm⟩ | ⟨h12, h9, h7, hm⟩ |
      ⟨h12, h7, hm⟩
  · rw [hm]
    constructor
    · intro h; simp at h
    · rintro ⟨h, -, -, -⟩; omega
  · rw [hm]
    cases hpa : PiaAddress.from_address (a &&& 0x2ff) with
    | none =>
      simp only [hpa]
      constructor
      · intro _
        exact ⟨h12, by omega, by omega, by trivial⟩
      · intro _
        trivial
    | some pa => simp [hpa]
  · rw [hm]
    constructor
    · intro h; simp at h
    · rintro ⟨-, h9', -, -⟩; omega
  · rw [hm]
    cases op
    · cases hx : TiaReadAddress.from_address ((a &&& 0x0f) ||| 0x30) <;>
        (simp only []; constructor
         · intro h; simp at h
         · rintro ⟨-, -, h7', -⟩; omega)
    · cases hx : TiaWriteAddress.from_address (a &&& 0x3f) <;>
        (simp only []; constructor
         · intro h; simp at h
         · rintro ⟨-, -, h7', -⟩; omega)

/-- C3 (counterexample): address `0x286` (A12 = 0, A9 = 1, A7 = 1, so
PIA-I/O-selected) decodes to neither a mapped register nor the documented
TIA error: `MemoryMirrors::from` hits the
`PiaAddress::from_address(addr & 0x2ff).unwrap()` panic, because the masked
offset `0x286` is not a defined PIA register. -/
theorem address_decode_claim_cex :
    MemoryMirrors.from 0x286 .Read = .crash ∧
      MemoryMirrors.from 0x286 .Write = .crash ∧
      PiaAddress.from_address (0x286 &&& 0x2ff) = none := by
  refine ⟨by decide, by decide, by decide⟩

/-- C3 (amended): for every address, the `bus.rs` decoder — testing A12
first, then A9 and A7 — maps the address to exactly one of cartridge,
PIA I/O, PIA RAM or TIA (its `unreachable!()` default is never taken, and
the four categories are characterized disjointly and exhaustively by the
three address lines); the fallible `memory.rs` decoder likewise never takes
its default error arm, but it is total only up to two failure modes: the
documented errors on invalid 6-bit TIA sub-addresses, and an undocumented
`unwrap` panic exactly on PIA-I/O-selected addresses whose masked offset is
not a defined PIA register (e.g. `0x286`). -/
theorem address_decode_partition_amended (a : Nat) (_ha : a < 0x2000)
    (op : Operation) :
    ((busMirrorsFrom a).isSome = true) ∧
      (busMirrorsFrom a = some .Cartridge ↔ a &&& 0x1000 ≠ 0) ∧
      (busMirrorsFrom a = some .PiaIo ↔
        (a &&& 0x1000 = 0 ∧ a &&& 0x200 ≠ 0 ∧ a &&& 0x80 ≠ 0)) ∧
      (busMirrorsFrom a = some .PiaRam ↔
        (a &&& 0x1000 = 0 ∧ a &&& 0x200 = 0 ∧ a &&& 0x80 ≠ 0)) ∧
      (busMirrorsFrom a = some .Tia ↔ (a &&& 0x1000 = 0 ∧ a &&& 0x80 = 0)) ∧
      (MemoryMirrors.from a op ≠ .errDefault) ∧
      (MemoryMirrors.from a op = .crash ↔
        (a &&& 0x1000 = 0 ∧ a &&& 0x200 ≠ 0 ∧ a &&& 0x80 ≠ 0 ∧
          PiaAddress.from_address (a &&& 0x2ff) = none)) :=
  ⟨busFrom_isSome a, busFrom_cartridge_iff a, busFrom_piaio_iff a,
    busFrom_piaram_iff a, busFrom_tia_iff a, memFrom_never_default a op,
    memFrom_crash_iff a op⟩

/-- C3 (witness, at the crashing address `0x286` with a read). -/
theorem address_decode_partition_amended_witness :
    ((busMirrorsFrom 0x286).isSome = true) ∧
      (MemoryMirrors.from 0x286 .Read ≠ .errDefault) :=
  ⟨(address_decode_partition_amended 0x286 (by decide) .Read).1,
    (address_decode_partition_amended 0x286 (by decide) .Read).2.2.2.2.2.1⟩

/-- C4 (counterexample): on a standard 4K cartridge, reading or writing bus
address `0x286` aborts (the RIOT's `unwrap` panic) instead of being treated
as a zero read / ignored write. -/
theorem bus_error_claim_cex :
    AtariBus.read
        { rom := List.replicate 4096 0, tia := TIA.default, riot := RIOT.default }
        0x286 = none ∧
      AtariBus.write
        { rom := List.replicate 4096 0, tia := TIA.default, riot := RIOT.default }
        0x286 0x00 = none := by
  exact ⟨rfl, rfl⟩

/-- C4 (amended): with a 4K ROM, a bus read or write fails (aborts) exactly
on the PIA-I/O-selected addresses whose masked offset is not a defined PIA
register; every other address in `[0, 0x2000)` reads a byte and writes
normally — in particular TIA-routed reads of unmapped offsets return 0 and
TIA-routed writes to unmapped offsets are ignored, with no recoverable
error ever crossing the bus boundary. -/
theorem bus_error_handling_amended (b : AtariBus) (a v : Nat)
    (hrom : 4096 ≤ b.rom.length) (_ha : a < 0x2000) :
    ((b.read a = none) ↔
        (a &&& 0x1000 = 0 ∧ a &&& 0x200 ≠ 0 ∧ a &&& 0x80 ≠ 0 ∧
          PiaAddress.from_address (a &&& 0x2ff) = none)) ∧
      ((b.write a v = none) ↔
        (a &&& 0x1000 = 0 ∧ a &&& 0x200 ≠ 0 ∧ a &&& 0x80 ≠ 0 ∧
          PiaAddress.from_address (a &&& 0x2ff) = none)) := by
  have hle : a &&& 0xfff ≤ 0xfff := Nat.and_le_right
  rcases busFrom_cases a with ⟨h12, hc⟩ | ⟨h12, h9, h7, hc⟩ | ⟨h12, h9, h7, hc⟩ |
      ⟨h12, h7, hc⟩
  · constructor
    · unfold AtariBus.read
      rw [hc]
      show ((b.rom.get? (a &&& 0xfff)).map (fun v => (v, b)) = none) ↔ _
      rw [Option.map_eq_none', List.get?_eq_none]
      constructor
      · intro h; omega
      · rintro ⟨h', -, -, -⟩; omega
    · unfold AtariBus.write
      rw [hc]
      show ((if a &&& 0xfff < b.rom.length then
          some { b with rom := b.rom.set (a &&& 0xfff) v } else none) = none) ↔ _
      rw [if_pos (by omega)]
      constructor
      · intro h; simp at h
      · rintro ⟨h', -, -, -⟩; omega
  · constructor
    · unfold AtariBus.read
      rw [hc]
      show ((b.riot.read (a &&& 0x2ff)).map
          (fun vr => (vr.1, { b with riot := vr.2 })) = none) ↔ _
      rw [Option.map_eq_none', riot_read_none_iff]
      constructor
      · intro h; exact ⟨h12, by omega, by omega, h⟩
      · rintro ⟨-, -, -, h⟩; exact h
    · unfold AtariBus.write
      rw [hc]
      show ((b.riot.write (a &&& 0x2ff) v).map
          (fun r => { b with riot := r }) = none) ↔ _
      rw [Option.map_eq_none', riot_write_none_iff]
      constructor
      · intro h; exact ⟨h12, by omega, by omega, h⟩
      · rintro ⟨-, -, -, h⟩; exact h
  · constructor
    · unfold AtariBus.read
      rw [hc]
      show ((b.riot.read (a &&& 0x7f)).map
          (fun vr => (vr.1, { b with riot := vr.2 })) = none) ↔ _
      rw [Option.map_eq_none', riot_read_none_iff,
        pia_from_low (a &&& 0x7f) Nat.and_le_right]
      constructor
      · intro h; simp at h
      · rintro ⟨-, h9', -, -⟩; omega
    · unfold AtariBus.write
      rw [hc]
      show ((b.riot.write (a &&& 0x7f) v).map
          (fun r => { b with riot := r }) = none) ↔ _
      rw [Option.map_eq_none', riot_write_none_iff,
        pia_from_low (a &&& 0x7f) Nat.and_le_right]
      constructor
      · intro h; simp at h
      · rintro ⟨-, h9', -, -⟩; omega
  · constructor
    · unfold AtariBus.read
      rw [hc]
      show (some ((b.tia.read ((a &&& 0x0f) ||| 0x30)).1,
          { b with tia := (b.tia.read ((a &&& 0x0f) ||| 0x30)).2 }) = none) ↔ _
      constructor
      · intro h; simp at h
      · rintro ⟨-, -, h7', -⟩; omega
    · unfold AtariBus.write
      rw [hc]
      show (some { b with tia := b.tia.write (a &&& 0x3f) v } = none) ↔ _
      constructor
      · intro h; simp at h
      · rintro ⟨-, -, h7', -⟩; omega

/-- C4 (witness): the amended theorem applied at address `0x286` on a fresh
4K bus, discharging both hypotheses — the failing case is real. -/
theorem bus_error_handling_amended_witness :
    (AtariBus.read
        { rom := List.replicate 4096 0, tia := TIA.default, riot := RIOT.default }
        0x286 = none) ↔
      (0x286 &&& 0x1000 = 0 ∧ 0x286 &&& 0x200 ≠ 0 ∧ 0x286 &&& 0x80 ≠ 0 ∧
        PiaAddress.from_address (0x286 &&& 0x2ff) = none) :=
  (bus_error_handling_amended
    { rom := List.replicate 4096 0, tia := TIA.default, riot := RIOT.default }
    0x286 0 (by rw [List.length_replicate]) (by decide)).1

end Atari
